import Mathlib

/-!
# Project/task management application: authorization pipeline and statistics

A shallow embedding of

* `backend/src/middleware/auth.js` (`authenticateToken`, `optionalAuth`,
  `authorize`, `errorHandler`), and
* the statistics computed in `backend/src/routes/projects.js`
  (`GET /`, `GET /:id`, `GET /:id/dashboard`),

followed by theorems about them.

Conventions of the embedding.

* An Express middleware `(req, res, next) => ...` becomes a function from the
  request to an `Effects` record: the request as the middleware leaves it, the
  responses sent through `res.status(..).json(..)`, the number of calls of
  `next`, and the calls made to the collaborators `jwt.verify` and
  `User.findByPk`.  `console.error` logging is not recorded.
* A JavaScript exception is an `Except.error`; `await` of a rejected promise is
  the same thing.
* A JSON body is a record of optional fields; a field that is `undefined` (and
  therefore dropped by `res.json`) is `none`.
-/

namespace Auth

/-! ## Data model -/

/-- The object stored in `req.user` by the two verification middlewares. -/
structure Identity where
  userId : String
  email : String
  firstName : String
  lastName : String
  userType : String
  timezone : String
  deriving DecidableEq, Repr

/-- The row returned by `User.findByPk(id, { attributes: { exclude: ['password'] } })`. -/
structure UserRow where
  id : String
  email : String
  firstName : String
  lastName : String
  userType : String
  timezone : String
  isActive : Bool
  deriving DecidableEq, Repr

/-- The possible contents of `req.user`: never assigned, the explicit `null`, or
an identity object. -/
inductive ReqUser where
  | undefined
  | null
  | identity (i : Identity)
  deriving DecidableEq, Repr

/-- The part of the Express request the middlewares read or write:
`req.headers.authorization` (absent is `none`) and `req.user`. -/
structure Request where
  authorization : Option String
  user : ReqUser
  deriving DecidableEq, Repr

/-- One entry of `errors` in a validation response: `{ field, message }`. -/
structure FieldError where
  field : Option String
  message : String
  deriving DecidableEq, Repr

/-- A JSON response body.  `success` and `message` are always written by this
module; `field`, `errors` and `stack` are present only on some paths. -/
structure Body where
  success : Bool
  message : String
  field : Option String
  errors : Option (List FieldError)
  stack : Option String
  deriving DecidableEq, Repr

/-- The body `{ success: false, message }`. -/
def Body.failure (message : String) : Body :=
  { success := false, message := message, field := none, errors := none, stack := none }

/-- What `res.status(status).json(body)` sends. -/
structure Response where
  status : Nat
  body : Body
  deriving DecidableEq, Repr

/-- One entry of a Sequelize error's `errors` array (`ValidationErrorItem`):
its `path` (may be null or undefined) and its `message`. -/
structure ErrorItem where
  path : Option String
  message : String
  deriving DecidableEq, Repr

/-- A thrown JavaScript error as far as this module inspects it.  `statusCode`
and `stack` are `none` when the property is absent; `errors` is `none` when the
error has no `errors` property (reading `error.errors[0]` or calling
`error.errors.map` then throws a `TypeError`). -/
structure JsError where
  name : String
  message : String
  statusCode : Option Nat
  stack : Option String
  errors : Option (List ErrorItem)
  deriving DecidableEq, Repr

/-- The payload returned by `jwt.verify`; `userId` is `none` when the payload has
no such property. -/
structure Decoded where
  userId : Option String
  deriving DecidableEq, Repr

/-- The collaborators and configuration of the middleware: `process.env`,
`jwt.verify(token, secret)` and `User.findByPk(id, ..)`.  Either collaborator may
throw; a payload on which reading `decoded.userId` throws counts as a throwing
`verify`. -/
structure Env where
  jwtSecret : Option String
  nodeEnv : Option String
  verify : String → String → Except JsError Decoded
  findByPk : Option String → Except JsError (Option UserRow)

/-- Observable effects of running a middleware on a request. -/
structure Effects where
  req : Request
  responses : List Response
  nextCalls : Nat
  verifyCalls : List (String × String)
  lookups : List (Option String)
  deriving DecidableEq, Repr

/-- Nothing has happened yet. -/
def Effects.start (req : Request) : Effects :=
  { req := req, responses := [], nextCalls := 0, verifyCalls := [], lookups := [] }

/-- Effect of `res.status(status).json(body)`. -/
def Effects.send (fx : Effects) (status : Nat) (body : Body) : Effects :=
  { fx with responses := fx.responses ++ [{ status := status, body := body }] }

/-- Effect of `next()`. -/
def Effects.callNext (fx : Effects) : Effects :=
  { fx with nextCalls := fx.nextCalls + 1 }

/-- Effect of `req.user = u`. -/
def Effects.setUser (fx : Effects) (u : ReqUser) : Effects :=
  { fx with req := { fx.req with user := u } }

/-- Record a call `jwt.verify(token, secret)`. -/
def Effects.noteVerify (fx : Effects) (token secret : String) : Effects :=
  { fx with verifyCalls := fx.verifyCalls ++ [(token, secret)] }

/-- Record a call `User.findByPk(id, ..)`. -/
def Effects.noteLookup (fx : Effects) (id : Option String) : Effects :=
  { fx with lookups := fx.lookups ++ [id] }

/-! ## JavaScript string helpers -/

/-- `s.startsWith(p)`. -/
def startsWith (s p : String) : Bool :=
  p.toList.isPrefixOf s.toList

/-- `s.substring(start)`.  It is applied only after `startsWith` has matched an
ASCII literal of `start` characters, where UTF-16 code units and characters
coincide. -/
def substring (s : String) (start : Nat) : String :=
  String.mk (s.toList.drop start)

/-- `process.env.JWT_SECRET || 'fallback_secret_key'`: the empty string is falsy. -/
def signingSecret (env : Env) : String :=
  match env.jwtSecret with
  | some s => if s = "" then "fallback_secret_key" else s
  | none => "fallback_secret_key"

/-- The object literal built from the user row in both verification middlewares. -/
def identityOf (user : UserRow) : Identity :=
  { userId := user.id
    email := user.email
    firstName := user.firstName
    lastName := user.lastName
    userType := user.userType
    timezone := user.timezone }

/-! ## `authenticateToken` -/

/-- The `catch (error)` block of `authenticateToken`. -/
def authenticateCatch (fx : Effects) (error : JsError) : Effects :=
  if error.name = "JsonWebTokenError" then
    fx.send 401 (Body.failure "Invalid token")
  else if error.name = "TokenExpiredError" then
    fx.send 401 (Body.failure "Token expired")
  else
    fx.send 500 (Body.failure "Authentication error")

/-- Strict verification: `authenticateToken(req, res, next)`. -/
def authenticateToken (env : Env) (req : Request) : Effects :=
  let fx := Effects.start req
  match req.authorization with
  | none => fx.send 401 (Body.failure "Access token required")
  | some authHeader =>
    if authHeader = "" || !startsWith authHeader "Bearer " then
      fx.send 401 (Body.failure "Access token required")
    else
      let token := substring authHeader 7
      if token = "" then
        fx.send 401 (Body.failure "Access token required")
      else
        let fx := fx.noteVerify token (signingSecret env)
        match env.verify token (signingSecret env) with
        | .error error => authenticateCatch fx error
        | .ok decoded =>
          let fx := fx.noteLookup decoded.userId
          match env.findByPk decoded.userId with
          | .error error => authenticateCatch fx error
          | .ok none => fx.send 401 (Body.failure "User not found")
          | .ok (some user) =>
            if !user.isActive then
              fx.send 401 (Body.failure "Account is deactivated")
            else
              (fx.setUser (.identity (identityOf user))).callNext

/-! ## `optionalAuth` -/

/-- The `catch (error)` block of `optionalAuth`. -/
def optionalCatch (fx : Effects) (_error : JsError) : Effects :=
  (fx.setUser .null).callNext

/-- Optional verification: `optionalAuth(req, res, next)`. -/
def optionalAuth (env : Env) (req : Request) : Effects :=
  let fx := Effects.start req
  match req.authorization with
  | none => (fx.setUser .null).callNext
  | some authHeader =>
    if authHeader = "" || !startsWith authHeader "Bearer " then
      (fx.setUser .null).callNext
    else
      let token := substring authHeader 7
      if token = "" then
        (fx.setUser .null).callNext
      else
        let fx := fx.noteVerify token (signingSecret env)
        match env.verify token (signingSecret env) with
        | .error error => optionalCatch fx error
        | .ok decoded =>
          let fx := fx.noteLookup decoded.userId
          match env.findByPk decoded.userId with
          | .error error => optionalCatch fx error
          | .ok none => (fx.setUser .null).callNext
          | .ok (some user) =>
            if user.isActive then
              (fx.setUser (.identity (identityOf user))).callNext
            else
              (fx.setUser .null).callNext

/-! ## `authorize` -/

/-- The guard returned by `authorize(roles)`; `authorize()` is `authorize([])`. -/
def authorize (roles : List String) (req : Request) : Effects :=
  let fx := Effects.start req
  match req.user with
  | .undefined => fx.send 401 (Body.failure "Authentication required")
  | .null => fx.send 401 (Body.failure "Authentication required")
  | .identity user =>
    if roles.length ≠ 0 && !roles.contains user.userType then
      fx.send 403 (Body.failure "Insufficient permissions")
    else
      fx.callNext

/-! ## `errorHandler` -/

/-- The `TypeError` raised by reading a property of `undefined`. -/
def typeError (what : String) : JsError :=
  { name := "TypeError", message := what, statusCode := none, stack := none, errors := none }

/-- Truthiness of `error.statusCode`: absent and `0` are falsy. -/
def truthyStatus : Option Nat → Bool
  | some n => n != 0
  | none => false

/-- The body of the final `res.status(statusCode).json({ success: false, message,
...(process.env.NODE_ENV === 'development' && { stack: error.stack }) })`. -/
def finalBody (env : Env) (error : JsError) (message : String) : Body :=
  { success := false
    message := message
    field := none
    errors := none
    stack := if env.nodeEnv = some "development" then error.stack else none }

/-- The error-handling middleware `errorHandler(error, req, res, next)`: the
response it sends, or the exception it throws itself. -/
def errorHandler (env : Env) (error : JsError) : Except JsError Response :=
  if error.name = "SequelizeValidationError" then
    match error.errors with
    | none => .error (typeError "Cannot read properties of undefined (reading 'map')")
    | some items =>
      .ok { status := 400
            body := { success := false
                      message := "Validation error"
                      field := none
                      errors := some (items.map fun err =>
                        { field := err.path, message := err.message })
                      stack := none } }
  else if error.name = "SequelizeUniqueConstraintError" then
    match error.errors with
    | none => .error (typeError "Cannot read properties of undefined (reading '0')")
    | some items =>
      .ok { status := 409
            body := { success := false
                      message := "Resource already exists"
                      field := items.head?.bind ErrorItem.path
                      errors := none
                      stack := none } }
  else if error.name = "SequelizeForeignKeyConstraintError" then
    .ok { status := 400, body := Body.failure "Invalid reference to related resource" }
  else
    let statusCode := 500
    let message := "Internal server error"
    let (statusCode, message) :=
      if error.name = "JsonWebTokenError" then (401, "Invalid token") else (statusCode, message)
    let (statusCode, message) :=
      if error.name = "TokenExpiredError" then (401, "Token expired") else (statusCode, message)
    let (statusCode, message) :=
      if truthyStatus error.statusCode then (error.statusCode.getD 0, error.message)
      else (statusCode, message)
    .ok { status := statusCode, body := finalBody env error message }

end Auth

namespace Stats

/-! ## JavaScript Numbers

The percentages are computed with `Math.round((completed / total) * 100)` on
JavaScript Numbers, which are IEEE 754 binary64 values.  A finite non-negative
Number is represented exactly as a fraction of naturals; a non-finite result
(`NaN`, `Infinity`) is `none`.  Every operation is the exact rational operation
followed by rounding to the nearest binary64 value, ties to even. -/

/-- A non-negative rational `num / den`, `den > 0`. -/
structure Frac where
  num : Nat
  den : Nat
  deriving DecidableEq, Repr

/-- Number of binary digits of `n`, with fuel. -/
def bitLenAux : Nat → Nat → Nat
  | 0, _ => 0
  | fuel + 1, n => if n = 0 then 0 else bitLenAux fuel (n / 2) + 1

/-- Number of binary digits of `n`: `2 ^ (bitLen n - 1) ≤ n < 2 ^ bitLen n` for `n > 0`. -/
def bitLen (n : Nat) : Nat := bitLenAux n n

/-- For `n, d > 0`: the integer `e` with `2 ^ e ≤ n / d < 2 ^ (e + 1)`. -/
def floorLog2 (n d : Nat) : Int :=
  let e0 : Int := (bitLen n : Int) - (bitLen d : Int)
  if d * 2 ^ e0.toNat ≤ n * 2 ^ (-e0).toNat then e0 else e0 - 1

/-- The integer nearest to `n / d`, a tie going to the even neighbour. -/
def roundHalfEven (n d : Nat) : Nat :=
  let q := n / d
  let r := n % d
  if 2 * r < d then q
  else if d < 2 * r then q + 1
  else if q % 2 = 0 then q else q + 1

/-- The least power of two that is not a finite binary64 value, `2 ^ 1024`. -/
def overflowBound : Nat := (2 ^ 256) ^ 4

/-- The binary64 value nearest to `n / d` (round to nearest, ties to even):
53 significant bits, least exponent `-1074` (subnormals), overflow at `2 ^ 1024`
and a zero divisor give `none`. -/
def toF64 (n d : Nat) : Option Frac :=
  if d = 0 then none
  else if n = 0 then some { num := 0, den := 1 }
  else
    let e : Int := max (floorLog2 n d) (-1022) - 52
    let m := roundHalfEven (n * 2 ^ (-e).toNat) (d * 2 ^ e.toNat)
    if overflowBound * 2 ^ (-e).toNat ≤ m * 2 ^ e.toNat then none
    else some { num := m * 2 ^ e.toNat, den := 2 ^ (-e).toNat }

/-- A natural number as a Number.  It is used for array lengths, which are below
`2 ^ 32`, and for the literal `100`; naturals below `2 ^ 53` are exact Numbers. -/
def numOfNat (n : Nat) : Frac := { num := n, den := 1 }

/-- The Number `a / b`. -/
def numDiv (a b : Frac) : Option Frac := toF64 (a.num * b.den) (a.den * b.num)

/-- The Number `a * b`. -/
def numMul (a b : Frac) : Option Frac := toF64 (a.num * b.num) (a.den * b.den)

/-- The function `Math.round` on a finite non-negative Number: the integer
`⌊x + 1/2⌋`, computed exactly. -/
def mathRound (x : Frac) : Nat := (2 * x.num + x.den) / (2 * x.den)

/-- The expression `total > 0 ? Math.round((completed / total) * 100) : 0`. -/
def completionPercentage (completed total : Nat) : Option Nat :=
  if total > 0 then
    ((numDiv (numOfNat completed) (numOfNat total)).bind
      fun q => numMul q (numOfNat 100)).map mathRound
  else some 0

/-! ## Tasks and the wall clock -/

/-- A task row as far as the statistics read it.  `dueDate`, `createdAt` and
`updatedAt` are `Date` time values, in milliseconds since the epoch; a null
`dueDate` is `none`.  All time values are taken inside the ECMAScript time range,
where the additions and subtractions below are exact. -/
structure Task where
  status : String
  priority : String
  dueDate : Option Int
  createdAt : Int
  updatedAt : Int
  deriving DecidableEq, Repr

/-- The wall clock as the computation sees it: `clock k` is the time value
returned by the `k`-th read (`new Date()` or `Date.now()`), counting from `0`. -/
abbrev Clock : Type := Nat → Int

/-- A computation that may read the wall clock: from the clock and the number of
reads made so far to a value and the number of reads made afterwards. -/
def Timed (α : Type) : Type := Clock → Nat → α × Nat

/-- A computation that does not read the clock. -/
def Timed.ret {α : Type} (a : α) : Timed α := fun _ k => (a, k)

/-- Sequencing: the second computation continues with the read count of the first. -/
def Timed.andThen {α β : Type} (m : Timed α) (f : α → Timed β) : Timed β :=
  fun clock k => f (m clock k).1 clock (m clock k).2

instance : Monad Timed where
  pure := Timed.ret
  bind := Timed.andThen

/-- One read of the wall clock: `new Date()` or `Date.now()`. -/
def Timed.now : Timed Int := fun clock k => (clock k, k + 1)

/-- `tasks.filter(callback)` for a callback that may read the clock: the callback
runs once per element, in order. -/
def filterT (callback : Task → Timed Bool) : List Task → Timed (List Task)
  | [] => pure []
  | t :: ts => do
    let keep ← callback t
    let rest ← filterT callback ts
    pure (if keep then t :: rest else rest)

/-- `project.tasks || []`: an absent `tasks` field is the empty array. -/
def tasksOrEmpty : Option (List Task) → List Task
  | some tasks => tasks
  | none => []

/-- The callback `t => t.dueDate && new Date(t.dueDate) < new Date()`. -/
def overdueCallback (t : Task) : Timed Bool :=
  match t.dueDate with
  | none => pure false
  | some dueDate => do
    let now ← Timed.now
    pure (decide (dueDate < now))

/-- The `dueSoon` callback of the dashboard. -/
def dueSoonCallback (t : Task) : Timed Bool :=
  match t.dueDate with
  | none => pure false
  | some dueDate => do
    let today ← Timed.now
    let threeDaysFromNow := today + 3 * 24 * 60 * 60 * 1000
    pure (decide (dueDate ≥ today) && decide (dueDate ≤ threeDaysFromNow))

/-- The `tasksCreatedThisWeek` callback of the dashboard. -/
def createdThisWeekCallback (t : Task) : Timed Bool := do
  let now ← Timed.now
  let weekAgo := now - 7 * 24 * 60 * 60 * 1000
  pure (decide (t.createdAt > weekAgo))

/-- The `tasksCompletedThisWeek` callback of the dashboard. -/
def completedThisWeekCallback (t : Task) : Timed Bool :=
  if t.status ≠ "done" then pure false
  else do
    let now ← Timed.now
    let weekAgo := now - 7 * 24 * 60 * 60 * 1000
    pure (decide (t.updatedAt > weekAgo))

/-! ## The three statistics computations -/

/-- The `stats` object of one project in `GET /`; also the shape of
`stats.overview` in the dashboard. -/
structure Overview where
  totalTasks : Nat
  completedTasks : Nat
  inProgressTasks : Nat
  todoTasks : Nat
  completionPercentage : Option Nat
  deriving DecidableEq, Repr

/-- The statistics of one row in `GET /` (the body of the `map` callback). -/
def projectStats (tasksField : Option (List Task)) : Overview :=
  let tasks := tasksOrEmpty tasksField
  let totalTasks := tasks.length
  let completedTasks := (tasks.filter fun task => task.status = "done").length
  let inProgressTasks := (tasks.filter fun task => task.status = "in_progress").length
  let todoTasks := (tasks.filter fun task => task.status = "todo").length
  { totalTasks := totalTasks
    completedTasks := completedTasks
    inProgressTasks := inProgressTasks
    todoTasks := todoTasks
    completionPercentage := completionPercentage completedTasks totalTasks }

/-- The statistics of `GET /`: `projects.rows.map(project => ...)`. -/
def projectsWithStats (rows : List (Option (List Task))) : List Overview :=
  rows.map projectStats

/-- The `stats` object of `GET /:id`. -/
structure DetailStats where
  totalTasks : Nat
  completedTasks : Nat
  inProgressTasks : Nat
  todoTasks : Nat
  criticalTasks : Nat
  highPriorityTasks : Nat
  overdueTasks : Nat
  completionPercentage : Option Nat
  deriving DecidableEq, Repr

/-- The statistics of `GET /:id`. -/
def detailStats (tasksField : Option (List Task)) : Timed DetailStats := do
  let tasks := tasksOrEmpty tasksField
  let overdue ← filterT overdueCallback tasks
  pure
    { totalTasks := tasks.length
      completedTasks := (tasks.filter fun task => task.status = "done").length
      inProgressTasks := (tasks.filter fun task => task.status = "in_progress").length
      todoTasks := (tasks.filter fun task => task.status = "todo").length
      criticalTasks := (tasks.filter fun task => task.priority = "critical").length
      highPriorityTasks := (tasks.filter fun task => task.priority = "high").length
      overdueTasks := overdue.length
      completionPercentage :=
        completionPercentage (tasks.filter fun task => task.status = "done").length tasks.length }

/-- The object `stats.priority` of the dashboard. -/
structure PriorityCounts where
  critical : Nat
  high : Nat
  medium : Nat
  low : Nat
  deriving DecidableEq, Repr

/-- The object `stats.deadlines` of the dashboard. -/
structure Deadlines where
  overdue : Nat
  dueSoon : Nat
  noDueDate : Nat
  deriving DecidableEq, Repr

/-- The object `stats.recentActivity` of the dashboard. -/
structure RecentActivity where
  tasksCreatedThisWeek : Nat
  tasksCompletedThisWeek : Nat
  deriving DecidableEq, Repr

/-- The `stats` object of `GET /:id/dashboard`. -/
structure DashboardStats where
  overview : Overview
  priority : PriorityCounts
  deadlines : Deadlines
  recentActivity : RecentActivity
  deriving DecidableEq, Repr

/-- The statistics of `GET /:id/dashboard`.  The clock is read by the callbacks
in the order in which the object literal evaluates them: `overdue`, `dueSoon`,
`tasksCreatedThisWeek`, `tasksCompletedThisWeek`. -/
def dashboardStats (tasksField : Option (List Task)) : Timed DashboardStats := do
  let tasks := tasksOrEmpty tasksField
  let overdue ← filterT overdueCallback tasks
  let dueSoon ← filterT dueSoonCallback tasks
  let created ← filterT createdThisWeekCallback tasks
  let completed ← filterT completedThisWeekCallback tasks
  pure
    { overview :=
        { totalTasks := tasks.length
          completedTasks := (tasks.filter fun t => t.status = "done").length
          inProgressTasks := (tasks.filter fun t => t.status = "in_progress").length
          todoTasks := (tasks.filter fun t => t.status = "todo").length
          completionPercentage :=
            completionPercentage (tasks.filter fun t => t.status = "done").length tasks.length }
      priority :=
        { critical := (tasks.filter fun t => t.priority = "critical").length
          high := (tasks.filter fun t => t.priority = "high").length
          medium := (tasks.filter fun t => t.priority = "medium").length
          low := (tasks.filter fun t => t.priority = "low").length }
      deadlines :=
        { overdue := overdue.length
          dueSoon := dueSoon.length
          noDueDate := (tasks.filter fun t => t.dueDate.isNone).length }
      recentActivity :=
        { tasksCreatedThisWeek := created.length
          tasksCompletedThisWeek := completed.length } }

/-- A clock that returns `now` at every read. -/
def frozenClock (now : Int) : Clock := fun _ => now

/-- A clock that advances by one millisecond at every read, starting at `start`. -/
def tickingClock (start : Int) : Clock := fun k => start + k

/-- A task due at the time value `1700000000000` and created exactly seven days
(`604800000` ms) earlier. -/
def boundaryTask : Task :=
  { status := "todo", priority := "medium", dueDate := some 1700000000000
    createdAt := 1699395200000, updatedAt := 1699395200000 }

/-- A task with the given status and no due date, created and updated at time `0`. -/
def plainTask (status : String) : Task :=
  { status := status, priority := "medium", dueDate := none, createdAt := 0, updatedAt := 0 }

end Stats

namespace Stats

/-- A task whose `createdAt` and `updatedAt` lie one day after the time value
`1700000000000`, with status 'done'. -/
def futureTask : Task :=
  { status := "done", priority := "medium", dueDate := none
    createdAt := 1700086400000, updatedAt := 1700086400000 }

end Stats

namespace Client

/-! ## The client session store (`frontend/src/context/AuthContext.js`)

The provider keeps the identity in React state (`user`) and the token and the
serialised identity in `localStorage` under the keys 'authToken' and 'user'.
A state update `setUser(..)` is taken as done when the operation has finished.
Toasts and `console.error` output are not recorded. -/

/-- The credential state of the client: the `localStorage` entries 'authToken'
and 'user' (absent is `none`) and the React state `user` (`null` is `none`). -/
structure Session where
  authToken : Option String
  savedUser : Option String
  user : Option Auth.Identity
  deriving DecidableEq, Repr

/-- The object returned by the operations: `{ success }` or `{ success, message }`. -/
structure Result where
  success : Bool
  message : Option String
  deriving DecidableEq, Repr

/-- What `await axios.post('/auth/refresh')` does.  `throws`: the promise is
rejected (network failure, a status outside 2xx) or `response.data` is null, so
that reading `response.data.success` throws.  `responds success data`: the
promise resolves; `success` is the truthiness of `response.data.success`; `data`
is `none` when `response.data.data` is undefined, `some none` when it is an
object without `token`, and `some (some token)` otherwise. -/
inductive RefreshOutcome where
  | throws (message : String)
  | responds (success : Bool) (data : Option (Option String))
  deriving DecidableEq, Repr

/-- The function `logout()`: both entries are removed and the state is set to
`null`. -/
def logout (_s : Session) : Session :=
  { authToken := none, savedUser := none, user := none }

/-- The `catch (error)` block of `refreshToken`. -/
def refreshCatch (s : Session) : Session × Option Result :=
  (logout s, some { success := false, message := none })

/-- The function `refreshToken()`, given what the request does.  The second
component is the returned value; `none` is `undefined`, returned when the
function body ends without a `return`. -/
def refreshToken (s : Session) : RefreshOutcome → Session × Option Result
  | .throws _ => refreshCatch s
  | .responds success data =>
    if success then
      match data with
      | none => refreshCatch s
      | some token =>
        ({ s with authToken := some (token.getD "undefined") },
          some { success := true, message := none })
    else (s, none)

/-- The function `hasPermission(permission)` for the current `user`. -/
def hasPermission (user : Option Auth.Identity) (permission : String) : Bool :=
  match user with
  | none => false
  | some user =>
    if permission = "create_project" then
      user.userType = "individual" || user.userType = "company"
    else if permission = "manage_company" then
      user.userType = "company"
    else true

end Client

/-! # Theorems -/

namespace Auth

/-- C1: the guard returned by `authorize(roles)` answers 401 'Authentication
required' without calling `next` when the request carries no identity, whatever
`roles` is; answers 403 'Insufficient permissions' without calling `next` when
`roles` is non-empty and the identity's `userType` is not in it; and otherwise
(in particular for the empty role list) calls `next` exactly once and sends
nothing.  In every case the request itself is left as it was. -/
theorem authorize_decides (roles : List String) (req : Request) :
    ((req.user = .undefined ∨ req.user = .null) →
      authorize roles req =
        { req := req
          responses := [{ status := 401, body := Body.failure "Authentication required" }]
          nextCalls := 0, verifyCalls := [], lookups := [] }) ∧
    (∀ user, req.user = .identity user → roles ≠ [] → user.userType ∉ roles →
      authorize roles req =
        { req := req
          responses := [{ status := 403, body := Body.failure "Insufficient permissions" }]
          nextCalls := 0, verifyCalls := [], lookups := [] }) ∧
    (∀ user, req.user = .identity user → (roles = [] ∨ user.userType ∈ roles) →
      authorize roles req =
        { req := req, responses := [], nextCalls := 1, verifyCalls := [], lookups := [] }) := by
  refine ⟨?_, ?_, ?_⟩
  · rintro (h | h) <;> simp [authorize, h, Effects.start, Effects.send]
  · intro user hu hne hnot
    have hlen : roles.length ≠ 0 := by
      cases roles with
      | nil => exact absurd rfl hne
      | cons a as => simp
    simp [authorize, hu, Effects.start, Effects.send, hlen, hnot]
  · intro user hu hok
    rcases hok with h | h
    · simp [authorize, hu, Effects.start, Effects.callNext, h]
    · simp [authorize, hu, Effects.start, Effects.callNext, h]

/-- C1 at a concrete input: for the role list `["company"]` an identity of
`userType` "individual" is answered 403 and `next` is not called. -/
theorem authorize_decides_witness :
    authorize ["company"]
        { authorization := none
          user := .identity
            { userId := "u1", email := "a@b.c", firstName := "A", lastName := "B"
              userType := "individual", timezone := "UTC" } } =
      { req :=
          { authorization := none
            user := .identity
              { userId := "u1", email := "a@b.c", firstName := "A", lastName := "B"
                userType := "individual", timezone := "UTC" } }
        responses := [{ status := 403, body := Body.failure "Insufficient permissions" }]
        nextCalls := 0, verifyCalls := [], lookups := [] } :=
  (authorize_decides ["company"] _).2.1 _ rfl (by decide) (by decide)

/-- C2: when the Authorization header is absent, does not start with 'Bearer ',
or carries an empty token after that prefix, `authenticateToken` answers 401
with `{ success: false, message: 'Access token required' }`, leaves the request
untouched (no identity attached), does not call `next`, and calls neither
`jwt.verify` nor `User.findByPk`. -/
theorem authenticateToken_missing_credential (env : Env) (req : Request)
    (h : req.authorization = none ∨
      ∃ header, req.authorization = some header ∧
        (startsWith header "Bearer " = false ∨ substring header 7 = "")) :
    authenticateToken env req =
      { req := req
        responses := [{ status := 401, body := Body.failure "Access token required" }]
        nextCalls := 0, verifyCalls := [], lookups := [] } := by
  rcases h with h | ⟨header, h, hbad⟩
  · simp [authenticateToken, h, Effects.start, Effects.send]
  · rcases hbad with hbad | hbad
    · simp [authenticateToken, h, Effects.start, Effects.send, hbad]
    · by_cases h1 : header = "" ∨ startsWith header "Bearer " = false
      · simp [authenticateToken, h, Effects.start, Effects.send, h1]
      · simp [authenticateToken, h, Effects.start, Effects.send, h1, hbad]

/-- C2 at a concrete input: the header `Bearer ` with nothing after the prefix. -/
theorem authenticateToken_missing_credential_witness :
    authenticateToken
        { jwtSecret := none, nodeEnv := none
          verify := fun _ _ => .ok { userId := none }
          findByPk := fun _ => .ok none }
        { authorization := some "Bearer ", user := .undefined } =
      { req := { authorization := some "Bearer ", user := .undefined }
        responses := [{ status := 401, body := Body.failure "Access token required" }]
        nextCalls := 0, verifyCalls := [], lookups := [] } :=
  authenticateToken_missing_credential _ _ (Or.inr ⟨"Bearer ", rfl, Or.inr (by decide)⟩)

/-- Whatever path `optionalAuth` takes, it ends in `req.user = u; next()` for a
`u` that is `null` or an identity, with no response sent. -/
lemma optionalAuth_shape (env : Env) (req : Request) :
    ∃ u calls ids, u ≠ ReqUser.undefined ∧
      optionalAuth env req =
        { req := { authorization := req.authorization, user := u }
          responses := [], nextCalls := 1, verifyCalls := calls, lookups := ids } := by
  unfold optionalAuth
  cases hauth : req.authorization with
  | none =>
    exact ⟨.null, [], [], by simp, by simp [Effects.start, Effects.setUser, Effects.callNext, hauth]⟩
  | some header =>
    by_cases h1 : (header = "" || !startsWith header "Bearer ") = true
    · exact ⟨.null, [], [], by simp,
        by simp [Effects.start, Effects.setUser, Effects.callNext, hauth, h1]⟩
    · by_cases h2 : substring header 7 = ""
      · exact ⟨.null, [], [], by simp,
          by simp [Effects.start, Effects.setUser, Effects.callNext, hauth, h1, h2]⟩
      · cases hv : env.verify (substring header 7) (signingSecret env) with
        | error e =>
          exact ⟨.null, [(substring header 7, signingSecret env)], [], by simp,
            by simp [Effects.start, Effects.setUser, Effects.callNext, Effects.noteVerify,
              optionalCatch, hauth, h1, h2, hv]⟩
        | ok decoded =>
          cases hl : env.findByPk decoded.userId with
          | error e =>
            exact ⟨.null, [(substring header 7, signingSecret env)], [decoded.userId], by simp,
              by simp [Effects.start, Effects.setUser, Effects.callNext, Effects.noteVerify,
                Effects.noteLookup, optionalCatch, hauth, h1, h2, hv, hl]⟩
          | ok found =>
            cases found with
            | none =>
              exact ⟨.null, [(substring header 7, signingSecret env)], [decoded.userId], by simp,
                by simp [Effects.start, Effects.setUser, Effects.callNext, Effects.noteVerify,
                  Effects.noteLookup, hauth, h1, h2, hv, hl]⟩
            | some user =>
              by_cases ha : user.isActive = true
              · exact ⟨.identity (identityOf user), [(substring header 7, signingSecret env)],
                  [decoded.userId], by simp,
                  by simp [Effects.start, Effects.setUser, Effects.callNext, Effects.noteVerify,
                    Effects.noteLookup, hauth, h1, h2, hv, hl, ha]⟩
              · exact ⟨.null, [(substring header 7, signingSecret env)], [decoded.userId],
                  by simp,
                  by simp [Effects.start, Effects.setUser, Effects.callNext, Effects.noteVerify,
                    Effects.noteLookup, hauth, h1, h2, hv, hl, ha]⟩

/-- C3: `optionalAuth` never sends a response and always calls `next` exactly
once.  The identity it leaves on the request is either the explicit `null` or an
identity object, never `undefined`; it is the identity object `i` exactly when
the header starts with 'Bearer ', the token after the prefix is non-empty,
`jwt.verify` returns a payload, `User.findByPk` returns a row, that row is
active, and `i` is built from that row.  In every other case (header missing or
malformed, empty token, verification throws, lookup throws, user not found, user
inactive) it is `null`. -/
theorem optionalAuth_never_rejects (env : Env) (req : Request) :
    (optionalAuth env req).responses = [] ∧
    (optionalAuth env req).nextCalls = 1 ∧
    (optionalAuth env req).req.authorization = req.authorization ∧
    (optionalAuth env req).req.user ≠ .undefined ∧
    (∀ i, (optionalAuth env req).req.user = .identity i ↔
      ∃ header decoded user,
        req.authorization = some header ∧
        startsWith header "Bearer " = true ∧
        substring header 7 ≠ "" ∧
        env.verify (substring header 7) (signingSecret env) = .ok decoded ∧
        env.findByPk decoded.userId = .ok (some user) ∧
        user.isActive = true ∧
        i = identityOf user) ∧
    ((¬ ∃ header decoded user,
        req.authorization = some header ∧
        startsWith header "Bearer " = true ∧
        substring header 7 ≠ "" ∧
        env.verify (substring header 7) (signingSecret env) = .ok decoded ∧
        env.findByPk decoded.userId = .ok (some user) ∧
        user.isActive = true) ↔
      (optionalAuth env req).req.user = .null) := by
  have key : ∀ i, (optionalAuth env req).req.user = .identity i ↔
      ∃ header decoded user,
        req.authorization = some header ∧
        startsWith header "Bearer " = true ∧
        substring header 7 ≠ "" ∧
        env.verify (substring header 7) (signingSecret env) = .ok decoded ∧
        env.findByPk decoded.userId = .ok (some user) ∧
        user.isActive = true ∧
        i = identityOf user := by
    intro i
    unfold optionalAuth
    cases hauth : req.authorization with
    | none => simp [Effects.start, Effects.setUser, Effects.callNext]
    | some header =>
      by_cases h1 : startsWith header "Bearer " = true
      · have hne : header ≠ "" := by
          intro h0
          rw [h0] at h1
          exact absurd h1 (by decide)
        by_cases h2 : substring header 7 = ""
        · simp [Effects.start, Effects.setUser, Effects.callNext, h1, h2, hne]
        · cases hv : env.verify (substring header 7) (signingSecret env) with
          | error e =>
            simp [Effects.start, Effects.setUser, Effects.callNext, Effects.noteVerify,
              optionalCatch, h1, h2, hne, hv]
          | ok decoded =>
            cases hl : env.findByPk decoded.userId with
            | error e =>
              simp [Effects.start, Effects.setUser, Effects.callNext, Effects.noteVerify,
                Effects.noteLookup, optionalCatch, h1, h2, hne, hv, hl]
            | ok found =>
              cases found with
              | none =>
                simp [Effects.start, Effects.setUser, Effects.callNext, Effects.noteVerify,
                  Effects.noteLookup, h1, h2, hne, hv, hl]
              | some user =>
                by_cases ha : user.isActive = true
                · simp only [Effects.start, Effects.setUser, Effects.callNext,
                    Effects.noteVerify, Effects.noteLookup, h1, h2, hne, hv, hl, ha]
                  simp only [Bool.not_true, Bool.or_false, decide_eq_true_eq, if_false,
                    if_true, ReqUser.identity.injEq, Option.some.injEq]
                  constructor
                  · intro hi
                    exact ⟨header, decoded, user, rfl, h1, h2, hv, hl, ha, hi.symm⟩
                  · rintro ⟨header2, decoded2, user2, e1, -, -, e4, e5, -, e7⟩
                    subst e1
                    rw [hv] at e4
                    cases e4
                    rw [hl] at e5
                    cases e5
                    exact e7.symm
                · simp [Effects.start, Effects.setUser, Effects.callNext, Effects.noteVerify,
                    Effects.noteLookup, h1, h2, hne, hv, hl, ha]
      · simp [Effects.start, Effects.setUser, Effects.callNext, h1]
  obtain ⟨u, calls, ids, hu, shape⟩ := optionalAuth_shape env req
  have hdef : (optionalAuth env req).req.user ≠ .undefined := by
    rw [shape]; exact hu
  refine ⟨by rw [shape], by rw [shape], by rw [shape], hdef, key, ?_⟩
  · constructor
    · intro hno
      cases hu : (optionalAuth env req).req.user with
      | undefined => exact absurd hu hdef
      | null => rfl
      | identity i =>
        obtain ⟨header, decoded, user, a, b, c, d, e, f, _⟩ := (key i).1 hu
        exact absurd ⟨header, decoded, user, a, b, c, d, e, f⟩ hno
    · rintro hnull ⟨header, decoded, user, a, b, c, d, e, f⟩
      have := (key (identityOf user)).2 ⟨header, decoded, user, a, b, c, d, e, f, rfl⟩
      rw [hnull] at this
      exact absurd this (by simp)

/-- C8: for an error named 'SequelizeUniqueConstraintError' with entry list
`items`, `errorHandler` does not throw and answers 409 with
`{ success: false, message: 'Resource already exists', field }`, where `field`
is the path of the first entry when there is one and is absent when the list is
empty; no `errors` or `stack` field is sent, in any mode. -/
theorem errorHandler_unique_constraint (env : Env) (error : JsError) (items : List ErrorItem)
    (hname : error.name = "SequelizeUniqueConstraintError")
    (hitems : error.errors = some items) :
    errorHandler env error =
      .ok { status := 409
            body :=
              { success := false
                message := "Resource already exists"
                field := match items with
                  | [] => none
                  | first :: _ => first.path
                errors := none
                stack := none } } := by
  cases items with
  | nil => simp [errorHandler, hname, hitems]
  | cons first rest => simp [errorHandler, hname, hitems]

/-- C8 at concrete inputs: a uniqueness error whose first entry has path
"email" surfaces that field; one with an empty entry list sends no field. -/
theorem errorHandler_unique_constraint_witness :
    errorHandler { jwtSecret := none, nodeEnv := some "production"
                   verify := fun _ _ => .ok { userId := none }
                   findByPk := fun _ => .ok none }
        { name := "SequelizeUniqueConstraintError", message := "Validation error"
          statusCode := none, stack := some "at insert"
          errors := some [{ path := some "email", message := "email must be unique" }] } =
      .ok { status := 409
            body := { success := false, message := "Resource already exists"
                      field := some "email", errors := none, stack := none } } ∧
    errorHandler { jwtSecret := none, nodeEnv := some "development"
                   verify := fun _ _ => .ok { userId := none }
                   findByPk := fun _ => .ok none }
        { name := "SequelizeUniqueConstraintError", message := "Validation error"
          statusCode := none, stack := some "at insert", errors := some [] } =
      .ok { status := 409
            body := { success := false, message := "Resource already exists"
                      field := none, errors := none, stack := none } } :=
  ⟨errorHandler_unique_constraint _ _ _ rfl rfl, errorHandler_unique_constraint _ _ _ rfl rfl⟩

/-- C9, counterexample: an error that carries `statusCode` 422 but is named
'SequelizeValidationError' is answered 400 'Validation error', not with its own
status and message; and an error that carries `statusCode` 0 is answered
500 'Internal server error'. -/
theorem errorHandler_statusCode_not_always_passed :
    errorHandler { jwtSecret := none, nodeEnv := some "production"
                   verify := fun _ _ => .ok { userId := none }
                   findByPk := fun _ => .ok none }
        { name := "SequelizeValidationError", message := "Unprocessable"
          statusCode := some 422, stack := none, errors := some [] } =
      .ok { status := 400
            body := { success := false, message := "Validation error"
                      field := none, errors := some [], stack := none } } ∧
    errorHandler { jwtSecret := none, nodeEnv := some "production"
                   verify := fun _ _ => .ok { userId := none }
                   findByPk := fun _ => .ok none }
        { name := "AppError", message := "Nothing to report"
          statusCode := some 0, stack := none, errors := none } =
      .ok { status := 500, body := Body.failure "Internal server error" } := by
  constructor <;> rfl

/-- C9, amended: for an error that carries a non-zero `statusCode` and whose
name is none of 'SequelizeValidationError', 'SequelizeUniqueConstraintError',
'SequelizeForeignKeyConstraintError', `errorHandler` answers with the error's
own `statusCode` and the error's own message (also when the name is one of the
two token error names), with `success: false` and the stack only in
development mode. -/
theorem errorHandler_statusCode_passthrough (env : Env) (error : JsError) (code : Nat)
    (hcode : error.statusCode = some code) (hnz : code ≠ 0)
    (hv : error.name ≠ "SequelizeValidationError")
    (hu : error.name ≠ "SequelizeUniqueConstraintError")
    (hf : error.name ≠ "SequelizeForeignKeyConstraintError") :
    errorHandler env error =
      .ok { status := code
            body :=
              { success := false
                message := error.message
                field := none
                errors := none
                stack := if env.nodeEnv = some "development" then error.stack else none } } := by
  simp [errorHandler, hv, hu, hf, hcode, truthyStatus, hnz, finalBody]

/-- C9, amended, at a concrete input: a token error tagged with status 418. -/
theorem errorHandler_statusCode_passthrough_witness :
    errorHandler { jwtSecret := none, nodeEnv := some "production"
                   verify := fun _ _ => .ok { userId := none }
                   findByPk := fun _ => .ok none }
        { name := "JsonWebTokenError", message := "teapot"
          statusCode := some 418, stack := some "trace", errors := none } =
      .ok { status := 418
            body := { success := false, message := "teapot"
                      field := none, errors := none, stack := none } } :=
  errorHandler_statusCode_passthrough _ _ 418 rfl (by decide) (by decide) (by decide) (by decide)

/-- C10: for an error whose name is none of the validation, uniqueness,
foreign-key, invalid-token and expired-token names and which carries no
`statusCode`, `errorHandler` answers 500 with `success: false` and the message
'Internal server error', whatever the error's own message is; the stack is
attached exactly when `NODE_ENV` is 'development'.  And for every error, every
response `errorHandler` produces outside development mode, in particular in
production mode, has no stack field. -/
theorem errorHandler_unclassified (env : Env) (error : JsError)
    (hv : error.name ≠ "SequelizeValidationError")
    (hu : error.name ≠ "SequelizeUniqueConstraintError")
    (hf : error.name ≠ "SequelizeForeignKeyConstraintError")
    (hj : error.name ≠ "JsonWebTokenError")
    (ht : error.name ≠ "TokenExpiredError")
    (hs : error.statusCode = none) :
    errorHandler env error =
      .ok { status := 500
            body :=
              { success := false
                message := "Internal server error"
                field := none
                errors := none
                stack := if env.nodeEnv = some "development" then error.stack else none } } ∧
    (∀ (anyEnv : Env) (anyError : JsError) (response : Response),
      anyEnv.nodeEnv ≠ some "development" →
      errorHandler anyEnv anyError = .ok response → response.body.stack = none) ∧
    (∀ (anyEnv : Env) (anyError : JsError) (response : Response),
      anyEnv.nodeEnv = some "production" →
      errorHandler anyEnv anyError = .ok response → response.body.stack = none) := by
  have nostack : ∀ (anyEnv : Env) (anyError : JsError) (response : Response),
      anyEnv.nodeEnv ≠ some "development" →
      errorHandler anyEnv anyError = .ok response → response.body.stack = none := by
    intro anyEnv anyError response hmode hresp
    unfold errorHandler at hresp
    split at hresp
    · split at hresp
      · cases hresp
      · cases hresp; rfl
    · split at hresp
      · split at hresp
        · cases hresp
        · cases hresp; rfl
      · split at hresp
        · cases hresp; rfl
        · simp only [finalBody, hmode, if_false] at hresp
          cases hresp; rfl
  refine ⟨?_, nostack, ?_⟩
  · simp [errorHandler, hv, hu, hf, hj, ht, hs, truthyStatus, finalBody]
  · intro anyEnv anyError response hmode
    exact nostack anyEnv anyError response (by rw [hmode]; decide)

/-- C10 at a concrete input: an unclassified `TypeError` in production mode. -/
theorem errorHandler_unclassified_witness :
    errorHandler { jwtSecret := none, nodeEnv := some "production"
                   verify := fun _ _ => .ok { userId := none }
                   findByPk := fun _ => .ok none }
        { name := "TypeError", message := "x is not a function"
          statusCode := none, stack := some "at handler (app.js:1:1)", errors := none } =
      .ok { status := 500
            body := { success := false, message := "Internal server error"
                      field := none, errors := none, stack := none } } :=
  (errorHandler_unclassified _ _ (by decide) (by decide) (by decide) (by decide) (by decide)
    rfl).1

end Auth

namespace Stats

/-! ## Numbers -/

/-- Zero has no binary digits, whatever the fuel. -/
lemma bitLenAux_zero (fuel : Nat) : bitLenAux fuel 0 = 0 := by
  cases fuel <;> simp [bitLenAux]

/-- With fuel at least `n` the digit count is exact: the fuel never runs out. -/
lemma bitLenAux_spec : ∀ (fuel n : Nat), n ≤ fuel →
    n < 2 ^ bitLenAux fuel n ∧ (0 < n → 2 ^ (bitLenAux fuel n - 1) ≤ n) := by
  intro fuel
  induction fuel with
  | zero =>
    intro n hn
    have : n = 0 := by omega
    subst this
    simp [bitLenAux]
  | succ fuel ih =>
    intro n hn
    by_cases h0 : n = 0
    · subst h0
      simp [bitLenAux]
    · have hhalf : n / 2 ≤ fuel := by omega
      obtain ⟨hlt, hge⟩ := ih (n / 2) hhalf
      simp only [bitLenAux, h0, if_false, Nat.add_sub_cancel]
      constructor
      · rw [pow_succ]
        omega
      · intro _
        by_cases h1 : n / 2 = 0
        · rw [h1, bitLenAux_zero]
          simp
          omega
        · have hpos : 0 < n / 2 := Nat.pos_of_ne_zero h1
          have hb := hge hpos
          have hb1 : 1 ≤ bitLenAux fuel (n / 2) := by
            by_contra hcon
            have : bitLenAux fuel (n / 2) = 0 := by omega
            rw [this] at hlt
            simp at hlt
            omega
          have : 2 ^ bitLenAux fuel (n / 2) = 2 * 2 ^ (bitLenAux fuel (n / 2) - 1) := by
            rw [← pow_succ']
            congr 1
            omega
          rw [this]
          omega

/-- The function `bitLen` is the binary length. -/
lemma bitLen_spec (n : Nat) (hn : 0 < n) : 2 ^ (bitLen n - 1) ≤ n ∧ n < 2 ^ bitLen n := by
  have := bitLenAux_spec n n le_rfl
  exact ⟨this.2 hn, this.1⟩

/-- A positive number has at least one binary digit. -/
lemma bitLen_pos (n : Nat) (hn : 0 < n) : 1 ≤ bitLen n := by
  by_contra h
  have h0 : bitLen n = 0 := by omega
  have := (bitLen_spec n hn).2
  rw [h0] at this
  simp at this
  omega

/-- Lower half of the specification of `floorLog2`: `2 ^ e ≤ n / d`. -/
lemma floorLog2_le (n d : Nat) (hn : 0 < n) (hd : 0 < d) :
    d * 2 ^ (floorLog2 n d).toNat ≤ n * 2 ^ (-(floorLog2 n d)).toNat := by
  unfold floorLog2
  simp only []
  split
  · assumption
  · obtain ⟨hn1, hn2⟩ := bitLen_spec n hn
    obtain ⟨hd1, hd2⟩ := bitLen_spec d hd
    have hbn := bitLen_pos n hn
    have hbd := bitLen_pos d hd
    by_cases hcmp : bitLen d < bitLen n
    · have e1 : ((bitLen n : Int) - (bitLen d : Int) - 1).toNat = bitLen n - bitLen d - 1 := by
        omega
      have e2 : (-((bitLen n : Int) - (bitLen d : Int) - 1)).toNat = 0 := by omega
      rw [e1, e2, pow_zero, mul_one]
      have hpow : 2 ^ bitLen d * 2 ^ (bitLen n - bitLen d - 1) = 2 ^ (bitLen n - 1) := by
        rw [← pow_add]
        congr 1
        omega
      calc d * 2 ^ (bitLen n - bitLen d - 1)
          ≤ 2 ^ bitLen d * 2 ^ (bitLen n - bitLen d - 1) :=
            Nat.mul_le_mul_right _ (le_of_lt hd2)
        _ = 2 ^ (bitLen n - 1) := hpow
        _ ≤ n := hn1
    · have e1 : ((bitLen n : Int) - (bitLen d : Int) - 1).toNat = 0 := by omega
      have e2 : (-((bitLen n : Int) - (bitLen d : Int) - 1)).toNat =
          bitLen d - bitLen n + 1 := by omega
      rw [e1, e2, pow_zero, mul_one]
      have hpow : 2 ^ (bitLen n - 1) * 2 ^ (bitLen d - bitLen n + 1) = 2 ^ bitLen d := by
        rw [← pow_add]
        congr 1
        omega
      calc d ≤ 2 ^ bitLen d := le_of_lt hd2
        _ = 2 ^ (bitLen n - 1) * 2 ^ (bitLen d - bitLen n + 1) := hpow.symm
        _ ≤ n * 2 ^ (bitLen d - bitLen n + 1) := Nat.mul_le_mul_right _ hn1

/-- Rounding to the nearest integer does not cross an integer bound. -/
lemma roundHalfEven_le (n d J : Nat) (hd : 0 < d) (h : n ≤ J * d) : roundHalfEven n d ≤ J := by
  have hdm := Nat.div_add_mod n d
  have hr := Nat.mod_lt n hd
  have hq : n / d ≤ J := by
    by_contra hcon
    have h1 : J + 1 ≤ n / d := by omega
    have h2 : d * (J + 1) ≤ d * (n / d) := Nat.mul_le_mul_left d h1
    have h3 : d * (J + 1) = J * d + d := by ring
    omega
  by_cases hJ : n / d = J
  · have hzero : n % d = 0 := by
      have : d * (n / d) = J * d := by rw [hJ]; ring
      omega
    unfold roundHalfEven
    simp only [hzero]
    rw [if_pos (by omega)]
    exact hq
  · have hlt : n / d + 1 ≤ J := by omega
    unfold roundHalfEven
    simp only []
    split
    · exact hq
    · split
      · exact hlt
      · split
        · exact hq
        · exact hlt

/-- Every 53-bit significand is below the overflow bound. -/
lemma two_pow_53_le_overflowBound : 2 ^ 53 ≤ overflowBound := by
  unfold overflowBound
  have h1 : 2 ^ 53 ≤ 2 ^ 256 := Nat.pow_le_pow_right (by norm_num) (by norm_num)
  have h2 : 2 ^ 256 ≤ (2 ^ 256) ^ 4 := Nat.le_self_pow (by norm_num) _
  exact le_trans h1 h2

/-- Rounding to binary64 does not cross an integer bound below `2 ^ 53`, and
stays finite. -/
lemma toF64_le (n d K : Nat) (hn : 0 < n) (hd : 0 < d) (hK : K < 2 ^ 53) (h : n ≤ K * d) :
    ∃ f, toF64 n d = some f ∧ f.num ≤ K * f.den ∧ 0 < f.den := by
  have hE : floorLog2 n d ≤ 52 := by
    by_contra hcon
    have h53 : 53 ≤ (floorLog2 n d).toNat := by omega
    have hneg : (-(floorLog2 n d)).toNat = 0 := by omega
    have hle := floorLog2_le n d hn hd
    rw [hneg, pow_zero, mul_one] at hle
    have hpow : 2 ^ 53 ≤ 2 ^ (floorLog2 n d).toNat := Nat.pow_le_pow_right (by norm_num) h53
    have h1 : d * 2 ^ 53 ≤ d * 2 ^ (floorLog2 n d).toNat := Nat.mul_le_mul_left d hpow
    have h2 : K * d < 2 ^ 53 * d := Nat.mul_lt_mul_of_pos_right hK hd
    have h3 : d * 2 ^ 53 = 2 ^ 53 * d := Nat.mul_comm _ _
    omega
  have he : (max (floorLog2 n d) (-1022) - 52).toNat = 0 := by omega
  obtain ⟨s, hs⟩ : ∃ s, (-(max (floorLog2 n d) (-1022) - 52)).toNat = s := ⟨_, rfl⟩
  have hm : roundHalfEven (n * 2 ^ s) d ≤ K * 2 ^ s := by
    apply roundHalfEven_le _ _ _ hd
    calc n * 2 ^ s ≤ K * d * 2 ^ s := Nat.mul_le_mul_right _ h
      _ = K * 2 ^ s * d := by ring
  have hpos : 0 < 2 ^ s := pow_pos (by norm_num) s
  have hno : ¬ overflowBound * 2 ^ s ≤ roundHalfEven (n * 2 ^ s) d := by
    have h1 : K * 2 ^ s < 2 ^ 53 * 2 ^ s := Nat.mul_lt_mul_of_pos_right hK hpos
    have h2 : 2 ^ 53 * 2 ^ s ≤ overflowBound * 2 ^ s :=
      Nat.mul_le_mul_right _ two_pow_53_le_overflowBound
    omega
  refine ⟨{ num := roundHalfEven (n * 2 ^ s) d, den := 2 ^ s }, ?_, hm, hpos⟩
  unfold toF64
  simp only [he, hs, pow_zero, mul_one]
  rw [if_neg (by omega), if_neg (by omega), if_neg hno]

/-- The reported percentage is a finite Number between 0 and 100 whenever the
completed count does not exceed the total. -/
lemma completionPercentage_le (completed total : Nat) (h : completed ≤ total) :
    ∃ p, completionPercentage completed total = some p ∧ p ≤ 100 := by
  unfold completionPercentage
  by_cases ht : total > 0
  · rw [if_pos ht]
    have hround : ∀ g : Frac, g.num ≤ 100 * g.den → 0 < g.den → mathRound g ≤ 100 := by
      intro g hg hden
      unfold mathRound
      have : (2 * g.num + g.den) / (2 * g.den) < 101 := by
        rw [Nat.div_lt_iff_lt_mul (by omega)]
        omega
      omega
    have hmul : ∀ f : Frac, f.num ≤ 1 * f.den → 0 < f.den →
        ∃ g, numMul f (numOfNat 100) = some g ∧ g.num ≤ 100 * g.den ∧ 0 < g.den := by
      intro f hf hden
      unfold numMul numOfNat
      simp only [mul_one]
      by_cases hz : f.num = 0
      · refine ⟨{ num := 0, den := 1 }, ?_, by simp, by simp⟩
        unfold toF64
        rw [if_neg (by omega), hz]
        simp
      · exact toF64_le (f.num * 100) f.den 100 (by omega) hden (by norm_num) (by omega)
    have hdiv : ∃ f, numDiv (numOfNat completed) (numOfNat total) = some f ∧
        f.num ≤ 1 * f.den ∧ 0 < f.den := by
      unfold numDiv numOfNat
      simp only [mul_one, one_mul]
      by_cases hz : completed = 0
      · refine ⟨{ num := 0, den := 1 }, ?_, by simp, by simp⟩
        unfold toF64
        rw [if_neg (by omega), hz]
        simp
      · have := toF64_le completed total 1 (by omega) ht (by norm_num) (by omega)
        simpa using this
    obtain ⟨f, hf, hf1, hf2⟩ := hdiv
    obtain ⟨g, hg, hg1, hg2⟩ := hmul f hf1 hf2
    refine ⟨mathRound g, ?_, hround g hg1 hg2⟩
    rw [hf]
    simp [hg]
  · rw [if_neg ht]
    exact ⟨0, rfl, by omega⟩

/-! ## Percentages -/

/-- C4, failing input: for a project with 40 tasks of which 23 are done, all
three statistics computations report `completionPercentage` 57, although
`100 * 23 / 40 = 57.5` rounds to 58: the quotient `23 / 40` is rounded to a
binary64 value below `0.575` before it is multiplied by 100.  On the statuses
`[done, done, todo, in_progress]` of the specification the three computations
report 4 tasks, 2 completed and 50 percent.  Dividing `100 * 23` by 40 instead
gives 58.  The exact half `14.5` (29 of 200) is likewise reported as 14, while
the exact half `12.5` (1 of 8) is reported as 13. -/
theorem completionPercentage_misses_tie :
    (projectStats (some (List.replicate 23 (plainTask "done") ++
        List.replicate 17 (plainTask "todo")))).completionPercentage = some 57 ∧
    (∀ (clock : Clock) (k : Nat),
      (detailStats (some (List.replicate 23 (plainTask "done") ++
        List.replicate 17 (plainTask "todo"))) clock k).1.completionPercentage = some 57) ∧
    (∀ (clock : Clock) (k : Nat),
      (dashboardStats (some (List.replicate 23 (plainTask "done") ++
        List.replicate 17 (plainTask "todo"))) clock k).1.overview.completionPercentage
        = some 57) ∧
    round ((100 * 23 : ℚ) / 40) = 58 ∧
    completionPercentage 23 40 = some 57 ∧
    numDiv (numOfNat 23) (numOfNat 40) =
      some { num := 5179139571476070, den := 9007199254740992 } ∧
    (5179139571476070 : ℚ) / 9007199254740992 < 23 / 40 ∧
    (numDiv (numOfNat (100 * 23)) (numOfNat 40)).map mathRound = some 58 ∧
    completionPercentage 29 200 = some 14 ∧ round ((100 * 29 : ℚ) / 200) = 15 ∧
    completionPercentage 1 8 = some 13 ∧ round ((100 * 1 : ℚ) / 8) = 13 ∧
    (projectStats (some [plainTask "done", plainTask "done", plainTask "todo",
        plainTask "in_progress"])) =
      { totalTasks := 4, completedTasks := 2, inProgressTasks := 1, todoTasks := 1
        completionPercentage := some 50 } := by
  have exact : ∀ (q : ℚ) (z : ℤ), (z : ℚ) ≤ q + 1 / 2 → q + 1 / 2 < z + 1 → round q = z := by
    intro q z h1 h2
    rw [round_eq, Int.floor_eq_iff]
    exact ⟨h1, h2⟩
  refine ⟨by decide, fun clock k => by rfl, fun clock k => by rfl, ?_, by decide, by decide,
    by norm_num, by decide, by decide, ?_, by decide, ?_, by decide⟩
  · exact exact _ 58 (by norm_num) (by norm_num)
  · exact exact _ 15 (by norm_num) (by norm_num)
  · exact exact _ 13 (by norm_num) (by norm_num)

/-- C5: for an empty task collection, given as an absent `tasks` field or as an
empty array, each of the three statistics computations yields zero for every
count and `completionPercentage` 0, as a finite Number and with no clock read.
The value comes from the `total > 0` guard: with a zero total the expression is
0 whatever the completed count, while the division it guards would not be a
finite Number with a zero divisor. -/
theorem empty_project_statistics :
    projectStats none =
      { totalTasks := 0, completedTasks := 0, inProgressTasks := 0, todoTasks := 0
        completionPercentage := some 0 } ∧
    projectStats (some []) =
      { totalTasks := 0, completedTasks := 0, inProgressTasks := 0, todoTasks := 0
        completionPercentage := some 0 } ∧
    (∀ (clock : Clock) (k : Nat),
      detailStats none clock k =
        ({ totalTasks := 0, completedTasks := 0, inProgressTasks := 0, todoTasks := 0
           criticalTasks := 0, highPriorityTasks := 0, overdueTasks := 0
           completionPercentage := some 0 }, k) ∧
      detailStats (some []) clock k =
        ({ totalTasks := 0, completedTasks := 0, inProgressTasks := 0, todoTasks := 0
           criticalTasks := 0, highPriorityTasks := 0, overdueTasks := 0
           completionPercentage := some 0 }, k)) ∧
    (∀ (clock : Clock) (k : Nat),
      dashboardStats none clock k =
        ({ overview :=
             { totalTasks := 0, completedTasks := 0, inProgressTasks := 0, todoTasks := 0
               completionPercentage := some 0 }
           priority := { critical := 0, high := 0, medium := 0, low := 0 }
           deadlines := { overdue := 0, dueSoon := 0, noDueDate := 0 }
           recentActivity := { tasksCreatedThisWeek := 0, tasksCompletedThisWeek := 0 } },
          k) ∧
      dashboardStats (some []) clock k =
        ({ overview :=
             { totalTasks := 0, completedTasks := 0, inProgressTasks := 0, todoTasks := 0
               completionPercentage := some 0 }
           priority := { critical := 0, high := 0, medium := 0, low := 0 }
           deadlines := { overdue := 0, dueSoon := 0, noDueDate := 0 }
           recentActivity := { tasksCreatedThisWeek := 0, tasksCompletedThisWeek := 0 } },
          k)) ∧
    (∀ completed : Nat, completionPercentage completed 0 = some 0) ∧
    (∀ completed : Nat, numDiv (numOfNat completed) (numOfNat 0) = none) := by
  refine ⟨by decide, by decide, fun clock k => ⟨rfl, rfl⟩, fun clock k => ⟨rfl, rfl⟩,
    fun c => rfl, fun c => ?_⟩
  simp [numDiv, numOfNat, toF64]

/-! ## Time windows -/

@[simp] lemma Timed.run_pure {α : Type} (a : α) (clock : Clock) (k : Nat) :
    (pure a : Timed α) clock k = (a, k) := rfl

@[simp] lemma Timed.run_bind {α β : Type} (m : Timed α) (f : α → Timed β) (clock : Clock)
    (k : Nat) : (m >>= f) clock k = f (m clock k).1 clock (m clock k).2 := rfl

@[simp] lemma Timed.run_now (clock : Clock) (k : Nat) : Timed.now clock k = (clock k, k + 1) :=
  rfl

/-- When the callback's answer on the given clock does not depend on the read
count, `filterT` keeps exactly the elements on which it answers `true`. -/
lemma filterT_eq_filter (callback : Task → Timed Bool) (q : Task → Bool) (clock : Clock)
    (hq : ∀ t k, (callback t clock k).1 = q t) :
    ∀ (ts : List Task) (k : Nat), (filterT callback ts clock k).1 = ts.filter q := by
  intro ts
  induction ts with
  | nil => intro k; rfl
  | cons t ts ih =>
    intro k
    simp only [filterT, Timed.run_bind, Timed.run_pure, hq, ih, List.filter_cons]

lemma overdueCallback_frozen (clock : Clock) (now : Int) (hclock : ∀ i, clock i = now)
    (t : Task) (k : Nat) :
    (overdueCallback t clock k).1 =
      (match t.dueDate with
        | some dueDate => decide (dueDate < now)
        | none => false) := by
  unfold overdueCallback
  cases t.dueDate <;> simp [hclock]

lemma dueSoonCallback_frozen (clock : Clock) (now : Int) (hclock : ∀ i, clock i = now)
    (t : Task) (k : Nat) :
    (dueSoonCallback t clock k).1 =
      (match t.dueDate with
        | some dueDate => decide (now ≤ dueDate ∧ dueDate ≤ now + 259200000)
        | none => false) := by
  unfold dueSoonCallback
  cases t.dueDate <;> simp [hclock]

lemma createdThisWeekCallback_frozen (clock : Clock) (now : Int) (hclock : ∀ i, clock i = now)
    (t : Task) (k : Nat) :
    (createdThisWeekCallback t clock k).1 = decide (now - 604800000 < t.createdAt) := by
  simp [createdThisWeekCallback, hclock]

lemma completedThisWeekCallback_frozen (clock : Clock) (now : Int)
    (hclock : ∀ i, clock i = now) (t : Task) (k : Nat) :
    (completedThisWeekCallback t clock k).1 =
      decide (t.status = "done" ∧ now - 604800000 < t.updatedAt) := by
  unfold completedThisWeekCallback
  by_cases h : t.status = "done" <;> simp [h, hclock]

/-- The deadline and recent-activity parts of the dashboard, and the overdue
count of the detail route, as plain filters when every clock read returns `now`. -/
lemma dashboard_windows_frozen (tasks : List Task) (now : Int) (clock : Clock) (k : Nat)
    (hclock : ∀ i, clock i = now) :
    (dashboardStats (some tasks) clock k).1.deadlines =
      { overdue := (tasks.filter fun t =>
          match t.dueDate with
          | some dueDate => decide (dueDate < now)
          | none => false).length
        dueSoon := (tasks.filter fun t =>
          match t.dueDate with
          | some dueDate => decide (now ≤ dueDate ∧ dueDate ≤ now + 259200000)
          | none => false).length
        noDueDate := (tasks.filter fun t => t.dueDate.isNone).length } ∧
    (dashboardStats (some tasks) clock k).1.recentActivity =
      { tasksCreatedThisWeek :=
          (tasks.filter fun t => decide (now - 604800000 < t.createdAt)).length
        tasksCompletedThisWeek :=
          (tasks.filter fun t =>
            decide (t.status = "done" ∧ now - 604800000 < t.updatedAt)).length } ∧
    (detailStats (some tasks) clock k).1.overdueTasks =
      (tasks.filter fun t =>
          match t.dueDate with
          | some dueDate => decide (dueDate < now)
          | none => false).length := by
  have ho := filterT_eq_filter overdueCallback _ clock (overdueCallback_frozen clock now hclock)
  have hd := filterT_eq_filter dueSoonCallback _ clock (dueSoonCallback_frozen clock now hclock)
  have hc := filterT_eq_filter createdThisWeekCallback _ clock
    (createdThisWeekCallback_frozen clock now hclock)
  have hf := filterT_eq_filter completedThisWeekCallback _ clock
    (completedThisWeekCallback_frozen clock now hclock)
  refine ⟨?_, ?_, ?_⟩
  · simp only [dashboardStats, tasksOrEmpty, Timed.run_bind, Timed.run_pure, ho, hd]
  · simp only [dashboardStats, tasksOrEmpty, Timed.run_bind, Timed.run_pure, hc, hf]
  · simp only [detailStats, tasksOrEmpty, Timed.run_bind, Timed.run_pure, ho]

/-- C6, counterexample: the deadline counts are not those of one reference
time.  With a clock that advances by a millisecond between reads, of two tasks
due at the same instant `1700000000000` exactly one is counted as overdue and
none as due soon, whereas for every single `now` the number of tasks with
`dueDate < now` among these two is 0 or 2; the detail route counts the same
single overdue task. -/
theorem deadline_counts_split_equal_due_dates :
    boundaryTask.dueDate = some 1700000000000 ∧
    (dashboardStats (some [boundaryTask, boundaryTask])
        (tickingClock 1700000000000) 0).1.deadlines =
      { overdue := 1, dueSoon := 0, noDueDate := 0 } ∧
    (detailStats (some [boundaryTask, boundaryTask])
        (tickingClock 1700000000000) 0).1.overdueTasks = 1 ∧
    ¬ ∃ now : Int,
      [boundaryTask, boundaryTask].countP (fun t =>
        match t.dueDate with
        | some dueDate => decide (dueDate < now)
        | none => false) = 1 := by
  refine ⟨rfl, by decide, by decide, ?_⟩
  rintro ⟨now, h⟩
  by_cases hlt : (1700000000000 : Int) < now
  · simp [boundaryTask, List.countP_cons, hlt] at h
  · simp [boundaryTask, List.countP_cons, hlt] at h

/-- C6, amended: in the dashboard, when every clock read of the computation returns
`now`, `overdue` is the number of tasks with a due date earlier than `now`,
`dueSoon` the number of tasks with a due date from `now` to `now` plus three days
(`259200000` ms) inclusive, and `noDueDate` the number of tasks without a due
date; the detail route counts the same overdue tasks.  For a single task with due
date `d`: it is counted as overdue iff `d < now`, as due soon iff
`now ≤ d ≤ now + 3 days`, never as both and never in `noDueDate`; due one day
before `now` it is overdue only, due two days after `now` it is due soon only;
without a due date it is counted in `noDueDate` only. -/
theorem dashboard_deadline_counts (tasks : List Task) (now : Int) (clock : Clock) (k : Nat)
    (hclock : ∀ i, clock i = now) :
    (dashboardStats (some tasks) clock k).1.deadlines =
      { overdue := tasks.countP fun t =>
          match t.dueDate with
          | some dueDate => decide (dueDate < now)
          | none => false
        dueSoon := tasks.countP fun t =>
          match t.dueDate with
          | some dueDate => decide (now ≤ dueDate ∧ dueDate ≤ now + 259200000)
          | none => false
        noDueDate := tasks.countP fun t => decide (t.dueDate = none) } ∧
    (detailStats (some tasks) clock k).1.overdueTasks =
      (tasks.countP fun t =>
          match t.dueDate with
          | some dueDate => decide (dueDate < now)
          | none => false) ∧
    (∀ (t : Task) (d : Int), t.dueDate = some d →
      ((dashboardStats (some [t]) clock k).1.deadlines.overdue = 1 ↔ d < now) ∧
      ((dashboardStats (some [t]) clock k).1.deadlines.overdue = 0 ↔ ¬ d < now) ∧
      ((dashboardStats (some [t]) clock k).1.deadlines.dueSoon = 1 ↔
        (now ≤ d ∧ d ≤ now + 259200000)) ∧
      ((dashboardStats (some [t]) clock k).1.deadlines.dueSoon = 0 ↔
        ¬ (now ≤ d ∧ d ≤ now + 259200000)) ∧
      ¬ ((dashboardStats (some [t]) clock k).1.deadlines.overdue = 1 ∧
         (dashboardStats (some [t]) clock k).1.deadlines.dueSoon = 1) ∧
      (dashboardStats (some [t]) clock k).1.deadlines.noDueDate = 0) ∧
    (∀ t : Task, t.dueDate = some (now - 86400000) →
      (dashboardStats (some [t]) clock k).1.deadlines =
        { overdue := 1, dueSoon := 0, noDueDate := 0 }) ∧
    (∀ t : Task, t.dueDate = some (now + 172800000) →
      (dashboardStats (some [t]) clock k).1.deadlines =
        { overdue := 0, dueSoon := 1, noDueDate := 0 }) ∧
    (∀ t : Task, t.dueDate = none →
      (dashboardStats (some [t]) clock k).1.deadlines =
        { overdue := 0, dueSoon := 0, noDueDate := 1 }) := by
  have single : ∀ t : Task, (dashboardStats (some [t]) clock k).1.deadlines =
      { overdue := if (match t.dueDate with
            | some dueDate => decide (dueDate < now)
            | none => false) = true then 1 else 0
        dueSoon := if (match t.dueDate with
            | some dueDate => decide (now ≤ dueDate ∧ dueDate ≤ now + 259200000)
            | none => false) = true then 1 else 0
        noDueDate := if t.dueDate.isNone = true then 1 else 0 } := by
    intro t
    rw [(dashboard_windows_frozen [t] now clock k hclock).1]
    simp only [List.filter_cons, List.filter_nil]
    congr 1 <;> split <;> rfl
  refine ⟨?_, ?_, ?_, ?_, ?_, ?_⟩
  · rw [(dashboard_windows_frozen tasks now clock k hclock).1]
    simp only [List.countP_eq_length_filter]
    congr 3
    funext t
    cases t.dueDate <;> simp
  · rw [(dashboard_windows_frozen tasks now clock k hclock).2.2]
    simp only [List.countP_eq_length_filter]
  · intro t d hd
    rw [single t]
    simp only [hd, Option.isNone_some]
    by_cases h1 : d < now
    · have h2 : ¬ (now ≤ d ∧ d ≤ now + 259200000) := by omega
      simp [h1, h2]
    · by_cases h2 : now ≤ d ∧ d ≤ now + 259200000 <;> simp [h1, h2]
  · intro t hd
    rw [single t]
    simp only [hd, Option.isNone_some]
    have h1 : now - 86400000 < now := by omega
    have h2 : ¬ (now ≤ now - 86400000 ∧ now - 86400000 ≤ now + 259200000) := by omega
    simp [h1, h2]
  · intro t hd
    rw [single t]
    simp only [hd, Option.isNone_some]
    have h1 : ¬ now + 172800000 < now := by omega
    have h2 : now ≤ now + 172800000 ∧ now + 172800000 ≤ now + 259200000 := by omega
    simp [h1, h2]
  · intro t hd
    rw [single t]
    simp [hd]

/-- C6, amended, at a concrete input: at `now = 1700000000000` a task due one day earlier
is counted as overdue and not as due soon. -/
theorem dashboard_deadline_counts_witness :
    (dashboardStats
        (some [{ status := "todo", priority := "high", dueDate := some (1700000000000 - 86400000)
                 createdAt := 1690000000000, updatedAt := 1690000000000 }])
        (frozenClock 1700000000000) 0).1.deadlines =
      { overdue := 1, dueSoon := 0, noDueDate := 0 } :=
  (dashboard_deadline_counts [] 1700000000000 (frozenClock 1700000000000) 0
    (fun _ => rfl)).2.2.2.1 _ rfl

/-! ## The reference time -/

/-- C7, counterexample: the reference time is not an input of the computation
but is read from the wall clock by every time comparison.  Two computations on
the same one-task sequence that both start at the time value `1700000000000`
produce different snapshots when in one of them the clock advances by a
millisecond between reads: the task, due at that very instant, is due soon in
the first and neither overdue nor due soon in the second.  The second snapshot
is not the snapshot of any single reference time. -/
theorem dashboard_reads_wall_clock :
    frozenClock 1700000000000 0 = tickingClock 1700000000000 0 ∧
    (dashboardStats (some [boundaryTask]) (frozenClock 1700000000000) 0).1.deadlines =
      { overdue := 0, dueSoon := 1, noDueDate := 0 } ∧
    (dashboardStats (some [boundaryTask]) (tickingClock 1700000000000) 0).1.deadlines =
      { overdue := 0, dueSoon := 0, noDueDate := 0 } ∧
    (dashboardStats (some [boundaryTask]) (tickingClock 1700000000000) 0).1.recentActivity =
      { tasksCreatedThisWeek := 0, tasksCompletedThisWeek := 0 } ∧
    (dashboardStats (some [boundaryTask]) (tickingClock 1700000000000) 0).2 = 3 ∧
    (dashboardStats (some [boundaryTask]) (frozenClock 1700000000000) 0).1 ≠
      (dashboardStats (some [boundaryTask]) (tickingClock 1700000000000) 0).1 ∧
    ¬ ∃ now : Int,
      (dashboardStats (some [boundaryTask]) (frozenClock now) 0).1 =
        (dashboardStats (some [boundaryTask]) (tickingClock 1700000000000) 0).1 := by
  refine ⟨by decide, by decide, by decide, by decide, by decide, by decide, ?_⟩
  rintro ⟨now, h⟩
  have hw := dashboard_windows_frozen [boundaryTask] now (frozenClock now) 0 (fun _ => rfl)
  have hd := hw.1
  have hr := hw.2.1
  rw [h] at hd hr
  have e1 : (dashboardStats (some [boundaryTask]) (tickingClock 1700000000000) 0).1.deadlines =
      { overdue := 0, dueSoon := 0, noDueDate := 0 } := by decide
  have e2 : (dashboardStats (some [boundaryTask]) (tickingClock 1700000000000)
      0).1.recentActivity = { tasksCreatedThisWeek := 0, tasksCompletedThisWeek := 0 } := by
    decide
  rw [e1] at hd
  rw [e2] at hr
  simp only [boundaryTask, List.filter_cons, List.filter_nil, Deadlines.mk.injEq,
    RecentActivity.mk.injEq] at hd hr
  obtain ⟨hover, hsoon, -⟩ := hd
  obtain ⟨hcreated, -⟩ := hr
  by_cases h0 : (1700000000000 : Int) < now
  · simp [h0] at hover
  · by_cases h1 : now ≤ 1700000000000 ∧ (1700000000000 : Int) ≤ now + 259200000
    · simp [h1] at hsoon
    · by_cases h2 : now - 604800000 < (1699395200000 : Int)
      · simp [h2] at hcreated
      · omega

/-- C7, amended: the snapshot is determined by the tasks and the wall-clock
readings made during the computation.  When every read returns the same value
`now`, in both of two computations on the same tasks, the two snapshots are
identical whatever the number of earlier reads, and every time comparison uses
that `now`: overdue is `dueDate < now`, due soon is
`now ≤ dueDate ≤ now + 3 days`, created this week is
`createdAt > now - 7 days`, completed this week is status 'done' and
`updatedAt > now - 7 days`. -/
theorem dashboard_deterministic_on_frozen_clock (tasksField : Option (List Task)) (now : Int)
    (clock₁ clock₂ : Clock) (k₁ k₂ : Nat)
    (h₁ : ∀ i, clock₁ i = now) (h₂ : ∀ i, clock₂ i = now) :
    (dashboardStats tasksField clock₁ k₁).1 = (dashboardStats tasksField clock₂ k₂).1 ∧
    (dashboardStats tasksField clock₁ k₁).1.deadlines.overdue =
      ((tasksOrEmpty tasksField).countP fun t =>
        match t.dueDate with
        | some dueDate => decide (dueDate < now)
        | none => false) ∧
    (dashboardStats tasksField clock₁ k₁).1.deadlines.dueSoon =
      ((tasksOrEmpty tasksField).countP fun t =>
        match t.dueDate with
        | some dueDate => decide (now ≤ dueDate ∧ dueDate ≤ now + 259200000)
        | none => false) ∧
    (dashboardStats tasksField clock₁ k₁).1.recentActivity.tasksCreatedThisWeek =
      ((tasksOrEmpty tasksField).countP fun t => decide (t.createdAt > now - 604800000)) ∧
    (dashboardStats tasksField clock₁ k₁).1.recentActivity.tasksCompletedThisWeek =
      ((tasksOrEmpty tasksField).countP fun t =>
        decide (t.status = "done" ∧ t.updatedAt > now - 604800000)) := by
  have same : ∀ tf : Option (List Task), dashboardStats tf = dashboardStats (some (tasksOrEmpty tf)) := by
    intro tf
    cases tf <;> rfl
  have parts : ∀ (c : Clock) (k : Nat), (∀ i, c i = now) →
      (dashboardStats tasksField c k).1 =
        { overview := (dashboardStats tasksField (frozenClock now) 0).1.overview
          priority := (dashboardStats tasksField (frozenClock now) 0).1.priority
          deadlines := (dashboardStats tasksField (frozenClock now) 0).1.deadlines
          recentActivity := (dashboardStats tasksField (frozenClock now) 0).1.recentActivity } := by
    intro c k hc
    have a := dashboard_windows_frozen (tasksOrEmpty tasksField) now c k hc
    have b := dashboard_windows_frozen (tasksOrEmpty tasksField) now (frozenClock now) 0
      (fun _ => rfl)
    rw [same tasksField]
    rw [b.1, b.2.1, ← a.1, ← a.2.1]
    rfl
  have w := dashboard_windows_frozen (tasksOrEmpty tasksField) now clock₁ k₁ h₁
  rw [← same tasksField] at w
  refine ⟨?_, ?_, ?_, ?_, ?_⟩
  · rw [parts clock₁ k₁ h₁, parts clock₂ k₂ h₂]
  · rw [w.1]
    simp only [List.countP_eq_length_filter]
  · rw [w.1]
    simp only [List.countP_eq_length_filter]
  · rw [w.2.1]
    simp only [List.countP_eq_length_filter, gt_iff_lt]
  · rw [w.2.1]
    simp only [List.countP_eq_length_filter, gt_iff_lt]

/-- C7, amended, at a concrete input: two computations whose clocks both read
`1700000000000` throughout, one of them after five earlier reads, agree. -/
theorem dashboard_deterministic_on_frozen_clock_witness :
    (dashboardStats (some [boundaryTask]) (frozenClock 1700000000000) 0).1 =
      (dashboardStats (some [boundaryTask]) (fun _ => 1700000000000) 5).1 :=
  (dashboard_deterministic_on_frozen_clock (some [boundaryTask]) 1700000000000
    (frozenClock 1700000000000) (fun _ => 1700000000000) 0 5 (fun _ => rfl) (fun _ => rfl)).1

end Stats

namespace Auth

/-! ## Strict verification past the header checks -/

/-- A header that starts with 'Bearer ' is not the empty string. -/
lemma ne_empty_of_startsWith_bearer (header : String)
    (hp : startsWith header "Bearer " = true) : header ≠ "" := by
  intro h0
  rw [h0] at hp
  exact absurd hp (by decide)

/-- C11: in `authenticateToken`, for a header that starts with 'Bearer ' and
carries a non-empty token: when `jwt.verify` throws an error named
'TokenExpiredError' the answer is 401 'Token expired'; when it throws an error
named 'JsonWebTokenError' the answer is 401 'Invalid token'; the two answers
differ; any other error thrown by `jwt.verify` or by `User.findByPk` is
answered 500 'Authentication error'.  In all these cases the request is left
unchanged (no identity attached) and `next` is not called. -/
theorem authenticateToken_thrown_errors (env : Env) (req : Request) (header : String)
    (hh : req.authorization = some header)
    (hp : startsWith header "Bearer " = true)
    (ht : substring header 7 ≠ "") :
    (∀ error, env.verify (substring header 7) (signingSecret env) = .error error →
      error.name = "TokenExpiredError" →
      authenticateToken env req =
        { req := req
          responses := [{ status := 401, body := Body.failure "Token expired" }]
          nextCalls := 0
          verifyCalls := [(substring header 7, signingSecret env)], lookups := [] }) ∧
    (∀ error, env.verify (substring header 7) (signingSecret env) = .error error →
      error.name = "JsonWebTokenError" →
      authenticateToken env req =
        { req := req
          responses := [{ status := 401, body := Body.failure "Invalid token" }]
          nextCalls := 0
          verifyCalls := [(substring header 7, signingSecret env)], lookups := [] }) ∧
    ({ status := 401, body := Body.failure "Token expired" } : Response) ≠
      { status := 401, body := Body.failure "Invalid token" } ∧
    (∀ error, env.verify (substring header 7) (signingSecret env) = .error error →
      error.name ≠ "TokenExpiredError" → error.name ≠ "JsonWebTokenError" →
      authenticateToken env req =
        { req := req
          responses := [{ status := 500, body := Body.failure "Authentication error" }]
          nextCalls := 0
          verifyCalls := [(substring header 7, signingSecret env)], lookups := [] }) ∧
    (∀ decoded error,
      env.verify (substring header 7) (signingSecret env) = .ok decoded →
      env.findByPk decoded.userId = .error error →
      error.name ≠ "TokenExpiredError" → error.name ≠ "JsonWebTokenError" →
      authenticateToken env req =
        { req := req
          responses := [{ status := 500, body := Body.failure "Authentication error" }]
          nextCalls := 0
          verifyCalls := [(substring header 7, signingSecret env)]
          lookups := [decoded.userId] }) := by
  have hne := ne_empty_of_startsWith_bearer header hp
  refine ⟨?_, ?_, by decide, ?_, ?_⟩
  · intro error hv hn
    simp [authenticateToken, authenticateCatch, Effects.start, Effects.send,
      Effects.noteVerify, hh, hp, ht, hne, hv, hn]
  · intro error hv hn
    simp [authenticateToken, authenticateCatch, Effects.start, Effects.send,
      Effects.noteVerify, hh, hp, ht, hne, hv, hn]
  · intro error hv h1 h2
    simp [authenticateToken, authenticateCatch, Effects.start, Effects.send,
      Effects.noteVerify, hh, hp, ht, hne, hv, h1, h2]
  · intro decoded error hv hl h1 h2
    simp [authenticateToken, authenticateCatch, Effects.start, Effects.send,
      Effects.noteVerify, Effects.noteLookup, hh, hp, ht, hne, hv, hl, h1, h2]

/-- C11 at a concrete input: a verifier that reports every token as expired. -/
theorem authenticateToken_thrown_errors_witness :
    authenticateToken
        { jwtSecret := some "s3cret", nodeEnv := none
          verify := fun _ _ => .error
            { name := "TokenExpiredError", message := "jwt expired", statusCode := none
              stack := none, errors := none }
          findByPk := fun _ => .ok none }
        { authorization := some "Bearer abc", user := .undefined } =
      { req := { authorization := some "Bearer abc", user := .undefined }
        responses := [{ status := 401, body := Body.failure "Token expired" }]
        nextCalls := 0
        verifyCalls := [("abc", "s3cret")], lookups := [] } :=
  (authenticateToken_thrown_errors _ _ "Bearer abc" rfl (by decide) (by decide)).1 _ rfl rfl

/-- C12: in `authenticateToken`, for a header that starts with 'Bearer ' and
carries a non-empty token that `jwt.verify` accepts: when `User.findByPk` finds
no row the answer is 401 'User not found'; when the row is inactive the answer is
401 'Account is deactivated'; in both cases the request is left unchanged and
`next` is not called.  When the row is active, `req.user` becomes the identity
built from the row, no response is sent and `next` is called exactly once. -/
theorem authenticateToken_subject (env : Env) (req : Request) (header : String)
    (decoded : Decoded)
    (hh : req.authorization = some header)
    (hp : startsWith header "Bearer " = true)
    (ht : substring header 7 ≠ "")
    (hv : env.verify (substring header 7) (signingSecret env) = .ok decoded) :
    (env.findByPk decoded.userId = .ok none →
      authenticateToken env req =
        { req := req
          responses := [{ status := 401, body := Body.failure "User not found" }]
          nextCalls := 0
          verifyCalls := [(substring header 7, signingSecret env)]
          lookups := [decoded.userId] }) ∧
    (∀ user, env.findByPk decoded.userId = .ok (some user) → user.isActive = false →
      authenticateToken env req =
        { req := req
          responses := [{ status := 401, body := Body.failure "Account is deactivated" }]
          nextCalls := 0
          verifyCalls := [(substring header 7, signingSecret env)]
          lookups := [decoded.userId] }) ∧
    (∀ user, env.findByPk decoded.userId = .ok (some user) → user.isActive = true →
      authenticateToken env req =
        { req :=
            { authorization := req.authorization
              user := .identity
                { userId := user.id, email := user.email, firstName := user.firstName
                  lastName := user.lastName, userType := user.userType
                  timezone := user.timezone } }
          responses := []
          nextCalls := 1
          verifyCalls := [(substring header 7, signingSecret env)]
          lookups := [decoded.userId] }) := by
  have hne := ne_empty_of_startsWith_bearer header hp
  refine ⟨?_, ?_, ?_⟩
  · intro hl
    simp [authenticateToken, Effects.start, Effects.send, Effects.noteVerify,
      Effects.noteLookup, hh, hp, ht, hne, hv, hl]
  · intro user hl ha
    simp [authenticateToken, Effects.start, Effects.send, Effects.noteVerify,
      Effects.noteLookup, hh, hp, ht, hne, hv, hl, ha]
  · intro user hl ha
    simp [authenticateToken, Effects.start, Effects.setUser, Effects.callNext,
      Effects.noteVerify, Effects.noteLookup, identityOf, hh, hp, ht, hne, hv, hl, ha]

/-- C12 at a concrete input: the token resolves to an inactive user. -/
theorem authenticateToken_subject_witness :
    authenticateToken
        { jwtSecret := none, nodeEnv := none
          verify := fun _ _ => .ok { userId := some "u7" }
          findByPk := fun _ => .ok (some
            { id := "u7", email := "x@y.z", firstName := "X", lastName := "Y"
              userType := "individual", timezone := "UTC", isActive := false }) }
        { authorization := some "Bearer abc", user := .undefined } =
      { req := { authorization := some "Bearer abc", user := .undefined }
        responses := [{ status := 401, body := Body.failure "Account is deactivated" }]
        nextCalls := 0
        verifyCalls := [("abc", "fallback_secret_key")]
        lookups := [some "u7"] } :=
  (authenticateToken_subject _ _ "Bearer abc" { userId := some "u7" } rfl (by decide)
    (by decide) rfl).2.1 _ rfl rfl

/-! ## Strict against optional verification -/

/-- The two verification middlewares side by side, for the same environment and
request: either strict verification rejects (one response with status 401 or
500, request untouched, `next` not called) and optional verification attaches
`null`; or both attach the same identity and strict verification calls `next`
once without responding. -/
lemma strict_optional_cases (env : Env) (req : Request) :
    ((∃ r, (authenticateToken env req).responses = [r] ∧ (r.status = 401 ∨ r.status = 500)) ∧
      (authenticateToken env req).nextCalls = 0 ∧
      (authenticateToken env req).req = req ∧
      (optionalAuth env req).req.user = .null) ∨
    (∃ i, (authenticateToken env req).req.user = .identity i ∧
      (optionalAuth env req).req.user = .identity i ∧
      (authenticateToken env req).responses = [] ∧
      (authenticateToken env req).nextCalls = 1) := by
  unfold authenticateToken optionalAuth
  cases hauth : req.authorization with
  | none =>
    left
    simp [Effects.start, Effects.send, Effects.setUser, Effects.callNext]
  | some header =>
    by_cases h1 : startsWith header "Bearer " = true
    · have hne := ne_empty_of_startsWith_bearer header h1
      by_cases h2 : substring header 7 = ""
      · left
        simp [Effects.start, Effects.send, Effects.setUser, Effects.callNext, h1, h2, hne]
      · cases hv : env.verify (substring header 7) (signingSecret env) with
        | error e =>
          left
          by_cases n1 : e.name = "JsonWebTokenError"
          · simp [Effects.start, Effects.send, Effects.setUser, Effects.callNext,
              Effects.noteVerify, authenticateCatch, optionalCatch, h1, h2, hne, hv, n1]
          · by_cases n2 : e.name = "TokenExpiredError"
            · simp [Effects.start, Effects.send, Effects.setUser, Effects.callNext,
                Effects.noteVerify, authenticateCatch, optionalCatch, h1, h2, hne, hv, n2]
            · simp [Effects.start, Effects.send, Effects.setUser, Effects.callNext,
                Effects.noteVerify, authenticateCatch, optionalCatch, h1, h2, hne, hv, n1, n2]
        | ok decoded =>
          cases hl : env.findByPk decoded.userId with
          | error e =>
            left
            by_cases n1 : e.name = "JsonWebTokenError"
            · simp [Effects.start, Effects.send, Effects.setUser, Effects.callNext,
                Effects.noteVerify, Effects.noteLookup, authenticateCatch, optionalCatch,
                h1, h2, hne, hv, hl, n1]
            · by_cases n2 : e.name = "TokenExpiredError"
              · simp [Effects.start, Effects.send, Effects.setUser, Effects.callNext,
                  Effects.noteVerify, Effects.noteLookup, authenticateCatch, optionalCatch,
                  h1, h2, hne, hv, hl, n2]
              · simp [Effects.start, Effects.send, Effects.setUser, Effects.callNext,
                  Effects.noteVerify, Effects.noteLookup, authenticateCatch, optionalCatch,
                  h1, h2, hne, hv, hl, n1, n2]
          | ok found =>
            cases found with
            | none =>
              left
              simp [Effects.start, Effects.send, Effects.setUser, Effects.callNext,
                Effects.noteVerify, Effects.noteLookup, h1, h2, hne, hv, hl]
            | some user =>
              by_cases ha : user.isActive = true
              · right
                exact ⟨identityOf user, by
                  simp [Effects.start, Effects.send, Effects.setUser, Effects.callNext,
                    Effects.noteVerify, Effects.noteLookup, h1, h2, hne, hv, hl, ha]⟩
              · left
                simp [Effects.start, Effects.send, Effects.setUser, Effects.callNext,
                  Effects.noteVerify, Effects.noteLookup, h1, h2, hne, hv, hl, ha]
    · left
      simp [Effects.start, Effects.send, Effects.setUser, Effects.callNext, h1]

/-- C16: for the same environment (the same results of `jwt.verify` and
`User.findByPk`) and the same request, `authenticateToken` attaches an identity
and calls `next` iff `optionalAuth` attaches a non-null identity, and then the
two identities are the same object field by field; whenever
`authenticateToken` sends a response, which then has status 401 or 500,
`optionalAuth` attaches `null`.  One of the two always happens. -/
theorem strict_agrees_with_optional (env : Env) (req : Request) :
    ((∃ i, (authenticateToken env req).req.user = .identity i ∧
        (authenticateToken env req).nextCalls = 1) ↔
      ∃ i, (optionalAuth env req).req.user = .identity i) ∧
    (∀ i j, (authenticateToken env req).req.user = .identity i →
      (authenticateToken env req).nextCalls = 1 →
      (optionalAuth env req).req.user = .identity j →
      i = j ∧ i.userId = j.userId ∧ i.email = j.email ∧ i.firstName = j.firstName ∧
        i.lastName = j.lastName ∧ i.userType = j.userType ∧ i.timezone = j.timezone) ∧
    (∀ r, r ∈ (authenticateToken env req).responses →
      (r.status = 401 ∨ r.status = 500) ∧ (optionalAuth env req).req.user = .null) ∧
    ((authenticateToken env req).responses ≠ [] ∨
      (authenticateToken env req).nextCalls = 1) := by
  rcases strict_optional_cases env req with
    ⟨⟨r, hr, hstatus⟩, hnext, hreq, hnull⟩ | ⟨i, hs, ho, hresp, hnext⟩
  · refine ⟨?_, ?_, ?_, ?_⟩
    · constructor
      · rintro ⟨i, -, hn⟩
        rw [hnext] at hn
        exact absurd hn (by decide)
      · rintro ⟨i, hi⟩
        rw [hnull] at hi
        exact absurd hi (by simp)
    · intro i j _ hn
      rw [hnext] at hn
      exact absurd hn (by decide)
    · intro r' hr'
      rw [hr] at hr'
      have : r' = r := by simpa using hr'
      subst this
      exact ⟨hstatus, hnull⟩
    · left
      rw [hr]
      simp
  · refine ⟨?_, ?_, ?_, ?_⟩
    · exact ⟨fun _ => ⟨i, ho⟩, fun _ => ⟨i, hs, hnext⟩⟩
    · intro a b ha _ hb
      rw [hs] at ha
      rw [ho] at hb
      have e1 : i = a := by simpa using ha
      have e2 : i = b := by simpa using hb
      subst e1
      subst e2
      simp
    · intro r hr
      rw [hresp] at hr
      exact absurd hr (by simp)
    · right
      exact hnext

end Auth

namespace Client

/-- C13, failing input: when the server answers the refresh request with a body
whose `success` is not true, `refreshToken` changes nothing and returns
`undefined`: the entries 'authToken' and 'user' stay in place, the in-memory user
stays, and no `{ success: false }` is returned.  The other paths do what is
claimed: a thrown request (and a successful answer without `data`) logs out and
returns `{ success: false }`; a successful answer with a token stores it under
'authToken', leaves the stored and the in-memory user unchanged and returns
`{ success: true }`. -/
theorem refreshToken_unsuccessful_answer_keeps_session :
    refreshToken
        { authToken := some "old-token", savedUser := some "saved-user-json"
          user := some { userId := "u1", email := "a@b.c", firstName := "A", lastName := "B"
                         userType := "individual", timezone := "UTC" } }
        (.responds false none) =
      ({ authToken := some "old-token", savedUser := some "saved-user-json"
         user := some { userId := "u1", email := "a@b.c", firstName := "A", lastName := "B"
                        userType := "individual", timezone := "UTC" } },
        none) ∧
    (∀ (s : Session) (data : Option (Option String)),
      refreshToken s (.responds false data) = (s, none)) ∧
    (∀ (s : Session) (message : String),
      refreshToken s (.throws message) =
        ({ authToken := none, savedUser := none, user := none },
          some { success := false, message := none })) ∧
    (∀ s : Session,
      refreshToken s (.responds true none) =
        ({ authToken := none, savedUser := none, user := none },
          some { success := false, message := none })) ∧
    (∀ (s : Session) (token : String),
      refreshToken s (.responds true (some (some token))) =
        ({ authToken := some token, savedUser := s.savedUser, user := s.user },
          some { success := true, message := none })) := by
  refine ⟨by decide, fun s data => ?_, fun s message => rfl, fun s => rfl, fun s token => rfl⟩
  simp [refreshToken]

/-- C14: `hasPermission` depends only on the tag and on the current identity.
Without an identity it is false for every tag.  With an identity,
'manage_company' holds iff the `userType` is 'company', 'create_project' holds
iff the `userType` is 'individual' or 'company', and every other tag holds.
Two identities with the same `userType` get the same answer for every tag. -/
theorem hasPermission_by_userType :
    (∀ permission : String, hasPermission none permission = false) ∧
    (∀ user : Auth.Identity,
      hasPermission (some user) "manage_company" = true ↔ user.userType = "company") ∧
    (∀ user : Auth.Identity,
      hasPermission (some user) "create_project" = true ↔
        (user.userType = "individual" ∨ user.userType = "company")) ∧
    (∀ (user : Auth.Identity) (permission : String),
      permission ≠ "manage_company" → permission ≠ "create_project" →
      hasPermission (some user) permission = true) ∧
    (∀ (user other : Auth.Identity) (permission : String),
      user.userType = other.userType →
      hasPermission (some user) permission = hasPermission (some other) permission) := by
  refine ⟨fun _ => rfl, ?_, ?_, ?_, ?_⟩
  · intro user
    simp [hasPermission]
  · intro user
    simp [hasPermission]
  · intro user permission h1 h2
    simp [hasPermission, h1, h2]
  · intro user other permission h
    simp [hasPermission, h]

/-- C14 at a concrete input: a tag that is neither 'manage_company' nor
'create_project' is granted to an identity of any `userType`. -/
theorem hasPermission_by_userType_witness :
    hasPermission
        (some { userId := "u1", email := "a@b.c", firstName := "A", lastName := "B"
                userType := "individual", timezone := "UTC" })
        "view_reports" = true :=
  hasPermission_by_userType.2.2.2.1 _ "view_reports" (by decide) (by decide)

end Client

namespace Stats

/-! ## Weekly windows -/

/-- C15, counterexample: at `now = 1700000000000` a task created and completed
one day after `now` is counted in `tasksCreatedThisWeek` and in
`tasksCompletedThisWeek`, although its timestamps are later than `now` and so
outside the trailing window from `now - 7 days` to `now`. -/
theorem weekly_counts_include_future_tasks :
    (dashboardStats (some [futureTask]) (frozenClock 1700000000000) 0).1.recentActivity =
      { tasksCreatedThisWeek := 1, tasksCompletedThisWeek := 1 } ∧
    [futureTask].countP (fun t =>
      decide (1700000000000 - 604800000 < t.createdAt ∧ t.createdAt ≤ 1700000000000)) = 0 ∧
    [futureTask].countP (fun t =>
      decide (t.status = "done" ∧
        1700000000000 - 604800000 < t.updatedAt ∧ t.updatedAt ≤ 1700000000000)) = 0 := by
  refine ⟨by decide, by decide, by decide⟩

/-- C15, amended: in the dashboard, when every clock read of the computation
returns `now`, `tasksCreatedThisWeek` is the number of tasks whose `createdAt` is
later than `now - 7 days` (`604800000` ms) and `tasksCompletedThisWeek` the
number of tasks with status 'done' whose `updatedAt` is later than
`now - 7 days`; neither has an upper bound at `now`.  When no task has a
`createdAt` later than `now`, the first is the number of tasks created in the
window from `now - 7 days` (exclusive) to `now` (inclusive); when no done task
has an `updatedAt` later than `now`, the second is the number of done tasks
updated in that window. -/
theorem dashboard_weekly_counts (tasks : List Task) (now : Int) (clock : Clock) (k : Nat)
    (hclock : ∀ i, clock i = now) :
    (dashboardStats (some tasks) clock k).1.recentActivity.tasksCreatedThisWeek =
      tasks.countP (fun t => decide (now - 604800000 < t.createdAt)) ∧
    (dashboardStats (some tasks) clock k).1.recentActivity.tasksCompletedThisWeek =
      tasks.countP (fun t => decide (t.status = "done" ∧ now - 604800000 < t.updatedAt)) ∧
    ((∀ t ∈ tasks, t.createdAt ≤ now) →
      (dashboardStats (some tasks) clock k).1.recentActivity.tasksCreatedThisWeek =
        tasks.countP (fun t =>
          decide (now - 604800000 < t.createdAt ∧ t.createdAt ≤ now))) ∧
    ((∀ t ∈ tasks, t.status = "done" → t.updatedAt ≤ now) →
      (dashboardStats (some tasks) clock k).1.recentActivity.tasksCompletedThisWeek =
        tasks.countP (fun t =>
          decide (t.status = "done" ∧ now - 604800000 < t.updatedAt ∧ t.updatedAt ≤ now))) := by
  have w := (dashboard_windows_frozen tasks now clock k hclock).2.1
  have hc : (dashboardStats (some tasks) clock k).1.recentActivity.tasksCreatedThisWeek =
      tasks.countP (fun t => decide (now - 604800000 < t.createdAt)) := by
    rw [w, List.countP_eq_length_filter]
  have hd : (dashboardStats (some tasks) clock k).1.recentActivity.tasksCompletedThisWeek =
      tasks.countP (fun t => decide (t.status = "done" ∧ now - 604800000 < t.updatedAt)) := by
    rw [w, List.countP_eq_length_filter]
  refine ⟨hc, hd, ?_, ?_⟩
  · intro hpast
    rw [hc]
    apply List.countP_congr
    intro t ht
    have := hpast t ht
    simp only [decide_eq_true_eq]
    constructor
    · intro h
      exact ⟨h, this⟩
    · intro h
      exact h.1
  · intro hpast
    rw [hd]
    apply List.countP_congr
    intro t ht
    have := hpast t ht
    simp only [decide_eq_true_eq]
    constructor
    · rintro ⟨h1, h2⟩
      exact ⟨h1, h2, this h1⟩
    · rintro ⟨h1, h2, -⟩
      exact ⟨h1, h2⟩

/-- C15, amended, at a concrete input: at `now = 1700000000000` the task created
exactly seven days earlier is not counted as created this week. -/
theorem dashboard_weekly_counts_witness :
    (dashboardStats (some [boundaryTask]) (frozenClock 1700000000000)
        0).1.recentActivity.tasksCreatedThisWeek =
      [boundaryTask].countP (fun t => decide (1700000000000 - 604800000 < t.createdAt)) :=
  (dashboard_weekly_counts [boundaryTask] 1700000000000 (frozenClock 1700000000000) 0
    (fun _ => rfl)).1

end Stats

namespace Stats

/-! ## Partition of the counts -/

/-- When every status is one of the three values, the three status filters
partition the list. -/
lemma status_filters_partition (tasks : List Task)
    (hstatus : ∀ t ∈ tasks, t.status = "todo" ∨ t.status = "in_progress" ∨ t.status = "done") :
    tasks.length =
      (tasks.filter fun t => t.status = "done").length +
      (tasks.filter fun t => t.status = "in_progress").length +
      (tasks.filter fun t => t.status = "todo").length := by
  induction tasks with
  | nil => rfl
  | cons t ts ih =>
    have ih' := ih (fun u hu => hstatus u (List.mem_cons_of_mem t hu))
    rcases hstatus t (List.mem_cons_self t ts) with h | h | h
    · simp only [List.filter_cons, h, List.length_cons]
      simp only [decide_eq_true_eq, String.reduceEq, if_false, if_true, List.length_cons]
      omega
    · simp only [List.filter_cons, h, List.length_cons]
      simp only [decide_eq_true_eq, String.reduceEq, if_false, if_true, List.length_cons]
      omega
    · simp only [List.filter_cons, h, List.length_cons]
      simp only [decide_eq_true_eq, String.reduceEq, if_false, if_true, List.length_cons]
      omega

/-- When every priority is one of the four values, the four priority filters
partition the list. -/
lemma priority_filters_partition (tasks : List Task)
    (hpriority : ∀ t ∈ tasks, t.priority = "critical" ∨ t.priority = "high" ∨
      t.priority = "medium" ∨ t.priority = "low") :
    (tasks.filter fun t => t.priority = "critical").length +
      (tasks.filter fun t => t.priority = "high").length +
      (tasks.filter fun t => t.priority = "medium").length +
      (tasks.filter fun t => t.priority = "low").length = tasks.length := by
  induction tasks with
  | nil => rfl
  | cons t ts ih =>
    have ih' := ih (fun u hu => hpriority u (List.mem_cons_of_mem t hu))
    rcases hpriority t (List.mem_cons_self t ts) with h | h | h | h
    · simp only [List.filter_cons, h, List.length_cons]
      simp only [decide_eq_true_eq, String.reduceEq, if_false, if_true, List.length_cons]
      omega
    · simp only [List.filter_cons, h, List.length_cons]
      simp only [decide_eq_true_eq, String.reduceEq, if_false, if_true, List.length_cons]
      omega
    · simp only [List.filter_cons, h, List.length_cons]
      simp only [decide_eq_true_eq, String.reduceEq, if_false, if_true, List.length_cons]
      omega
    · simp only [List.filter_cons, h, List.length_cons]
      simp only [decide_eq_true_eq, String.reduceEq, if_false, if_true, List.length_cons]
      omega

/-- The overview of the dashboard and the common fields of the detail route are
the statistics of the list route, whatever the clock. -/
lemma overview_eq_projectStats (tasksField : Option (List Task)) (clock : Clock) (k : Nat) :
    (dashboardStats tasksField clock k).1.overview = projectStats tasksField ∧
    (detailStats tasksField clock k).1.totalTasks = (projectStats tasksField).totalTasks ∧
    (detailStats tasksField clock k).1.completedTasks =
      (projectStats tasksField).completedTasks ∧
    (detailStats tasksField clock k).1.inProgressTasks =
      (projectStats tasksField).inProgressTasks ∧
    (detailStats tasksField clock k).1.todoTasks = (projectStats tasksField).todoTasks ∧
    (detailStats tasksField clock k).1.completionPercentage =
      (projectStats tasksField).completionPercentage :=
  ⟨rfl, rfl, rfl, rfl, rfl, rfl⟩

/-- C17: for a task sequence in which every status is 'todo', 'in_progress' or
'done', each of the three statistics computations (list, detail, dashboard)
satisfies `totalTasks = completedTasks + inProgressTasks + todoTasks`, hence
`0 ≤ completedTasks ≤ totalTasks`, and reports a finite `completionPercentage`
between 0 and 100; and in the dashboard, when every priority is 'critical',
'high', 'medium' or 'low', the four priority counts sum to `totalTasks`. -/
theorem statistics_counts_partition (tasksField : Option (List Task)) (clock : Clock) (k : Nat)
    (hstatus : ∀ t ∈ tasksOrEmpty tasksField,
      t.status = "todo" ∨ t.status = "in_progress" ∨ t.status = "done") :
    ((projectStats tasksField).totalTasks =
        (projectStats tasksField).completedTasks + (projectStats tasksField).inProgressTasks +
          (projectStats tasksField).todoTasks ∧
      0 ≤ (projectStats tasksField).completedTasks ∧
      (projectStats tasksField).completedTasks ≤ (projectStats tasksField).totalTasks ∧
      ∃ p, (projectStats tasksField).completionPercentage = some p ∧ 0 ≤ p ∧ p ≤ 100) ∧
    ((detailStats tasksField clock k).1.totalTasks =
        (detailStats tasksField clock k).1.completedTasks +
          (detailStats tasksField clock k).1.inProgressTasks +
          (detailStats tasksField clock k).1.todoTasks ∧
      0 ≤ (detailStats tasksField clock k).1.completedTasks ∧
      (detailStats tasksField clock k).1.completedTasks ≤
        (detailStats tasksField clock k).1.totalTasks ∧
      ∃ p, (detailStats tasksField clock k).1.completionPercentage = some p ∧
        0 ≤ p ∧ p ≤ 100) ∧
    ((dashboardStats tasksField clock k).1.overview.totalTasks =
        (dashboardStats tasksField clock k).1.overview.completedTasks +
          (dashboardStats tasksField clock k).1.overview.inProgressTasks +
          (dashboardStats tasksField clock k).1.overview.todoTasks ∧
      0 ≤ (dashboardStats tasksField clock k).1.overview.completedTasks ∧
      (dashboardStats tasksField clock k).1.overview.completedTasks ≤
        (dashboardStats tasksField clock k).1.overview.totalTasks ∧
      ∃ p, (dashboardStats tasksField clock k).1.overview.completionPercentage = some p ∧
        0 ≤ p ∧ p ≤ 100) ∧
    ((∀ t ∈ tasksOrEmpty tasksField,
        t.priority = "critical" ∨ t.priority = "high" ∨ t.priority = "medium" ∨
          t.priority = "low") →
      (dashboardStats tasksField clock k).1.priority.critical +
          (dashboardStats tasksField clock k).1.priority.high +
          (dashboardStats tasksField clock k).1.priority.medium +
          (dashboardStats tasksField clock k).1.priority.low =
        (dashboardStats tasksField clock k).1.overview.totalTasks) := by
  have hsum := status_filters_partition (tasksOrEmpty tasksField) hstatus
  have hle : ((tasksOrEmpty tasksField).filter fun t => t.status = "done").length ≤
      (tasksOrEmpty tasksField).length := List.length_filter_le _ _
  obtain ⟨p, hp, hp100⟩ := completionPercentage_le _ _ hle
  have base : (projectStats tasksField).totalTasks =
        (projectStats tasksField).completedTasks + (projectStats tasksField).inProgressTasks +
          (projectStats tasksField).todoTasks ∧
      0 ≤ (projectStats tasksField).completedTasks ∧
      (projectStats tasksField).completedTasks ≤ (projectStats tasksField).totalTasks ∧
      ∃ p, (projectStats tasksField).completionPercentage = some p ∧ 0 ≤ p ∧ p ≤ 100 :=
    ⟨hsum, Nat.zero_le _, hle, p, hp, Nat.zero_le _, hp100⟩
  obtain ⟨e0, e1, e2, e3, e4, e5⟩ := overview_eq_projectStats tasksField clock k
  refine ⟨base, ?_, ?_, ?_⟩
  · rw [e1, e2, e3, e4, e5]
    exact base
  · rw [e0]
    exact base
  · intro hpriority
    exact priority_filters_partition (tasksOrEmpty tasksField) hpriority

/-- C17 at a concrete input: the four statuses of the specification's example. -/
theorem statistics_counts_partition_witness :
    (projectStats (some [plainTask "done", plainTask "done", plainTask "todo",
        plainTask "in_progress"])).totalTasks =
      (projectStats (some [plainTask "done", plainTask "done", plainTask "todo",
          plainTask "in_progress"])).completedTasks +
        (projectStats (some [plainTask "done", plainTask "done", plainTask "todo",
          plainTask "in_progress"])).inProgressTasks +
        (projectStats (some [plainTask "done", plainTask "done", plainTask "todo",
          plainTask "in_progress"])).todoTasks :=
  (statistics_counts_partition
    (some [plainTask "done", plainTask "done", plainTask "todo", plainTask "in_progress"])
    (frozenClock 0) 0 (by decide)).1.1

end Stats
